import Mathlib

/-!
Verification of the NAF Solution Wizard data core (`wizard_data.py` and the
schedule/payload logic of `pages/20_NAF_Solution_Wizard.py`).

The Python code is shallowly embedded: Python values that can live in the
Streamlit session state or in the JSON wizard document are modelled by the
inductive type `Val`; dictionaries are association lists that keep insertion
order (as CPython dicts do); functions that can raise return `Option`.
Dates are modelled by their proleptic-Gregorian ordinal (`Int`), exactly the
representation CPython's `datetime.date.toordinal` uses, so that
`weekday o = (o - 1) % 7` (ordinal 1, January 1 of year 1, is a Monday).

Core `String` functions such as `String.replace`, `String.splitOn` and
`String.trim` do not reduce inside the Lean kernel, so the Python string
methods used by the code (`replace`, `split`, `strip`, `startswith`,
`endswith`, `join`) are re-implemented here on `List Char` by structural
recursion.
-/

/-- A Python value as it appears in the wizard's session state or JSON
document: string, bool, int, `datetime.date` (by ordinal), `None`, list or
(insertion-ordered) string-keyed dict. -/
inductive Val where
  | vStr : String → Val
  | vBool : Bool → Val
  | vInt : Int → Val
  | vDate : Int → Val
  | vNone : Val
  | vList : List Val → Val
  | vDict : List (String × Val) → Val

instance : Inhabited Val := ⟨Val.vNone⟩

mutual

/-- Structural equality test for `Val` (Python `==` on like-typed values). -/
def Val.beq : Val → Val → Bool
  | .vStr a, .vStr b => a == b
  | .vBool a, .vBool b => a == b
  | .vInt a, .vInt b => a == b
  | .vDate a, .vDate b => a == b
  | .vNone, .vNone => true
  | .vList a, .vList b => Val.beqList a b
  | .vDict a, .vDict b => Val.beqDict a b
  | _, _ => false

/-- Element-wise equality of `Val` lists. -/
def Val.beqList : List Val → List Val → Bool
  | [], [] => true
  | x :: xs, y :: ys => Val.beq x y && Val.beqList xs ys
  | _, _ => false

/-- Entry-wise equality of `Val` dicts. -/
def Val.beqDict : List (String × Val) → List (String × Val) → Bool
  | [], [] => true
  | (k, x) :: xs, (j, y) :: ys => k == j && Val.beq x y && Val.beqDict xs ys
  | _, _ => false

end

instance : BEq Val := ⟨Val.beq⟩

/-! ### Python string primitives on `List Char` -/

/-- Test whether `p` is a prefix of `s` (used for Python `startswith` and as
the matching step of `replace`/`split`). -/
def isPre : List Char → List Char → Bool
  | [], _ => true
  | _ :: _, [] => false
  | a :: p, b :: s => a == b && isPre p s

/-- Python `str.startswith`. -/
def pyStartsWith (s p : String) : Bool := isPre p.data s.data

/-- Python `str.endswith`. -/
def pyEndsWith (s p : String) : Bool := isPre p.data.reverse s.data.reverse

/-- Worker for `pyReplace`; the fuel argument is the length of the remaining
text, so the fuel never runs out on the initial call. -/
def replAux (pat rep : List Char) : Nat → List Char → List Char
  | 0, l => l
  | f + 1, l =>
    if pat ≠ [] && isPre pat l then rep ++ replAux pat rep f (l.drop pat.length)
    else match l with
      | [] => []
      | c :: r => c :: replAux pat rep f r

/-- Python `str.replace(pat, rep)`: replace every non-overlapping occurrence,
left to right.  (The code only calls it with non-empty `pat`.) -/
def pyReplace (s pat rep : String) : String :=
  ⟨replAux pat.data rep.data s.data.length s.data⟩

/-- Worker for `pySplit`, with the same fuel convention as `replAux`. -/
def splitAux (sep : List Char) : Nat → List Char → List Char → List (List Char)
  | 0, l, acc => [acc ++ l]
  | f + 1, l, acc =>
    if sep ≠ [] && isPre sep l then acc :: splitAux sep f (l.drop sep.length) []
    else match l with
      | [] => [acc]
      | c :: r => splitAux sep f r (acc ++ [c])

/-- Python `str.split(sep)` for a non-empty separator; `"".split(",") = [""]`. -/
def pySplit (s sep : String) : List String :=
  (splitAux sep.data s.data.length s.data []).map (fun l => ⟨l⟩)

/-- Drop leading whitespace characters. -/
def dropLeadWs : List Char → List Char
  | [] => []
  | c :: r => if c.isWhitespace then dropLeadWs r else c :: r

/-- Python `str.strip()` with no argument: remove leading and trailing
whitespace. -/
def pyStrip (s : String) : String :=
  ⟨(dropLeadWs (dropLeadWs s.data).reverse).reverse⟩

/-- Python `sep.join(parts)`. -/
def pyJoin (sep : String) (parts : List String) : String :=
  match parts with
  | [] => ""
  | p :: rest => rest.foldl (fun acc q => acc ++ sep ++ q) p

/-! ### Proleptic-Gregorian dates by ordinal (CPython `datetime` arithmetic) -/

/-- Gregorian leap-year test, as in CPython `datetime._is_leap`. -/
def isLeapYear (y : Int) : Bool := y % 4 == 0 && (y % 100 != 0 || y % 400 == 0)

/-- Days in month `m` (1-12) of year `y`, as in CPython `_days_in_month`. -/
def daysInMonth (y : Int) (m : Nat) : Nat :=
  if m = 2 then (if isLeapYear y then 29 else 28)
  else if m = 4 ∨ m = 6 ∨ m = 9 ∨ m = 11 then 30
  else 31

/-- Number of days before January 1 of year `y`, as in CPython
`_days_before_year` (valid for `y ≥ 1`, the only years `datetime` allows). -/
def daysBeforeYear (y : Int) : Int :=
  let n := y - 1
  365 * n + n / 4 - n / 100 + n / 400

/-- Number of days in year `y` strictly before month `m`. -/
def daysBeforeMonth (y : Int) (m : Nat) : Nat :=
  (List.range (m - 1)).foldl (fun acc i => acc + daysInMonth y (i + 1)) 0

/-- The ordinal of year `y`, month `m`, day `d` — CPython
`date(y, m, d).toordinal()` (January 1 of year 1 is ordinal 1). -/
def toOrdinal (y : Int) (m d : Nat) : Int :=
  daysBeforeYear y + daysBeforeMonth y m + d

/-- Python `date.weekday()`: 0 is Monday … 6 is Sunday.  Ordinal 1 is a
Monday, so the weekday is `(ordinal - 1) % 7`. -/
def weekday (o : Int) : Int := (o - 1) % 7

/-- Convert an ordinal back to `(year, month, day)`; inverse of `toOrdinal`
on the `datetime` range (algorithm after Howard Hinnant's `civil_from_days`,
shifted from the 1970 epoch to ordinals). -/
def civilFromOrdinal (o : Int) : Int × Nat × Nat :=
  let z := o + 305
  let era := z / 146097
  let doe := z - era * 146097
  let yoe := (doe - doe / 1460 + doe / 36524 - doe / 146096) / 365
  let y := yoe + era * 400
  let doy := doe - (365 * yoe + yoe / 4 - yoe / 100)
  let mp := (5 * doy + 2) / 153
  let d := doy - (153 * mp + 2) / 5 + 1
  let m := mp + (if mp < 10 then 3 else -9)
  (y + (if m ≤ 2 then 1 else 0), m.toNat, d.toNat)

/-- Zero-pad the decimal representation of `n` to at least two digits. -/
def pad2 (n : Nat) : String := if n < 10 then "0" ++ toString n else toString n

/-- Zero-pad the decimal representation of `n` to at least four digits. -/
def pad4 (n : Nat) : String :=
  if n < 10 then "000" ++ toString n
  else if n < 100 then "00" ++ toString n
  else if n < 1000 then "0" ++ toString n
  else toString n

/-- Python `date.strftime("%Y-%m-%d")` (also `str(date)`). -/
def formatYMD (o : Int) : String :=
  let c := civilFromOrdinal o
  pad4 c.1.toNat ++ "-" ++ pad2 c.2.1 ++ "-" ++ pad2 c.2.2

/-- Decimal value of a digit string (caller checks the characters). -/
def digitsToNat (l : List Char) : Nat :=
  l.foldl (fun n c => n * 10 + (c.toNat - 48)) 0

/-- Python `datetime.strptime(s, "%Y-%m-%d").date()`: three dash-separated
digit groups (year up to four digits, month and day up to two, all at least
one), forming a valid calendar date of year ≥ 1; `none` models the
`ValueError` raise. -/
def parseYMD (s : String) : Option Int :=
  match pySplit s "-" with
  | [ys, ms, ds] =>
    let yl := ys.data; let ml := ms.data; let dl := ds.data
    if yl ≠ [] ∧ yl.length ≤ 4 ∧ yl.all Char.isDigit ∧
       ml ≠ [] ∧ ml.length ≤ 2 ∧ ml.all Char.isDigit ∧
       dl ≠ [] ∧ dl.length ≤ 2 ∧ dl.all Char.isDigit then
      let y : Int := digitsToNat yl
      let m := digitsToNat ml
      let d := digitsToNat dl
      if 1 ≤ y ∧ 1 ≤ m ∧ m ≤ 12 ∧ 1 ≤ d ∧ d ≤ daysInMonth y m then
        some (toOrdinal y m d)
      else none
    else none
  | _ => none

/-! ### Python value semantics -/

/-- Python truthiness of a `Val`. -/
def truthy : Val → Bool
  | .vStr s => s ≠ ""
  | .vBool b => b
  | .vInt n => n ≠ 0
  | .vDate _ => true
  | .vNone => false
  | .vList l => !l.isEmpty
  | .vDict l => !l.isEmpty

/-- Python `a or b`. -/
def pyOr (a b : Val) : Val := if truthy a then a else b

mutual

/-- Python `str(v)`.  Container reprs are only reachable through `str` on a
list or dict, which no wizard code path with well-typed data exercises; they
are included for completeness (quotes written via `Char.ofNat 39`, braces via
escapes, no escaping inside strings). -/
def pyToStr : Val → String
  | .vStr s => s
  | .vBool b => if b then "True" else "False"
  | .vInt n => toString n
  | .vDate o => formatYMD o
  | .vNone => "None"
  | .vList l => "[" ++ pyJoin ", " (pyReprList l) ++ "]"
  | .vDict l => "\x7b" ++ pyJoin ", " (pyReprDict l) ++ "\x7d"

/-- Python `repr(v)` (no escaping inside strings). -/
def pyRepr : Val → String
  | .vStr s => String.singleton (Char.ofNat 39) ++ s ++ String.singleton (Char.ofNat 39)
  | .vBool b => if b then "True" else "False"
  | .vInt n => toString n
  | .vDate o =>
    let c := civilFromOrdinal o
    "datetime.date(" ++ toString c.1 ++ ", " ++ toString c.2.1 ++ ", " ++ toString c.2.2 ++ ")"
  | .vNone => "None"
  | .vList l => "[" ++ pyJoin ", " (pyReprList l) ++ "]"
  | .vDict l => "\x7b" ++ pyJoin ", " (pyReprDict l) ++ "\x7d"

/-- Reprs of the elements of a list. -/
def pyReprList : List Val → List String
  | [] => []
  | x :: xs => pyRepr x :: pyReprList xs

/-- Reprs of the entries of a dict. -/
def pyReprDict : List (String × Val) → List String
  | [] => []
  | (k, v) :: xs =>
    (String.singleton (Char.ofNat 39) ++ k ++ String.singleton (Char.ofNat 39) ++ ": " ++ pyRepr v)
      :: pyReprDict xs

end

/-- Python `int(v)` on the value kinds the wizard can hold: ints pass
through, bools become 0/1, numeric strings (optional sign, stripped) parse;
everything else raises (`none`). -/
def pyToInt (v : Val) : Option Int :=
  match v with
  | .vInt n => some n
  | .vBool b => some (if b then 1 else 0)
  | .vStr s =>
    let l := (pyStrip s).data
    match l with
    | '-' :: rest => if rest ≠ [] ∧ rest.all Char.isDigit then some (-(digitsToNat rest : Int)) else none
    | '+' :: rest => if rest ≠ [] ∧ rest.all Char.isDigit then some ((digitsToNat rest : Int)) else none
    | _ => if l ≠ [] ∧ l.all Char.isDigit then some ((digitsToNat l : Int)) else none
  | _ => none

/-- A Python dict as an insertion-ordered association list. -/
abbrev PyDict := List (String × Val)

/-- Raw lookup: the value at key `k`, if the key is present. -/
def dlookup (d : PyDict) (k : String) : Option Val :=
  match d with
  | [] => none
  | (j, v) :: rest => if j == k then some v else dlookup rest k

/-- Python `d.get(k, dflt)`. -/
def dgetD (d : PyDict) (k : String) (dflt : Val) : Val := (dlookup d k).getD dflt

/-- Python `d.get(k)` (missing key gives `None`). -/
def dget (d : PyDict) (k : String) : Val := dgetD d k Val.vNone

/-- Python `d[k] = v`: replace in place if the key exists (dicts keep the
original insertion position), else append.  Single pass; dict keys are
unique, so replacing the first occurrence is replacing the occurrence. -/
def dset (d : PyDict) (k : String) (v : Val) : PyDict :=
  match d with
  | [] => [(k, v)]
  | (j, w) :: rest => if j == k then (k, v) :: rest else (j, w) :: dset rest k v

/-- Python `obj.get(k)` where `obj` should be a dict; raises (`none`) on any
other receiver, and gives `None` when the key is missing. -/
def pyGet (v : Val) (k : String) : Option Val :=
  match v with
  | .vDict d => some (dget d k)
  | _ => none

/-- Python `obj.get(k, dflt)` with a dict receiver; raises otherwise. -/
def pyGetD (v : Val) (k : String) (dflt : Val) : Option Val :=
  match v with
  | .vDict d => some (dgetD d k dflt)
  | _ => none

/-- Python iteration `for x in v`: lists yield their elements; empty strings
and dicts yield nothing; anything else either raises or would immediately
raise in the loop bodies the wizard uses, so it is modelled as a raise. -/
def pyIter (v : Val) : Option (List Val) :=
  match v with
  | .vList l => some l
  | .vStr s => if s.isEmpty then some [] else none
  | .vDict d => if d.isEmpty then some [] else none
  | _ => none

/-- Is the value a Python dict (`isinstance(v, dict)`)? -/
def isDict : Val → Bool
  | .vDict _ => true
  | _ => false

/-- Is the value a Python list (`isinstance(v, list)`)? -/
def isList : Val → Bool
  | .vList _ => true
  | _ => false

/-! ### `wizard_data.py` — payload builder -/

/-- Embeds `_collect_checkbox_values` (wizard_data.py:176-188): the suffixes
(after removing the prefix with `str.replace`) of all keys with the given
prefix whose value is `True`, in dict iteration order. -/
def _collect_checkbox_values (session_state : PyDict) (pre : String) : List Val :=
  (session_state.filter (fun p => pyStartsWith p.1 pre && p.2 == Val.vBool true)).map
    (fun p => Val.vStr (pyReplace p.1 pre ""))

/-- Python `", ".join(items)`: raises (`none`) unless every element is a
string. -/
def joinValsComma (items : List Val) : Option String :=
  (items.mapM (fun v => match v with | Val.vStr s => some s | _ => none)).map (pyJoin ", ")

/-- Embeds `_build_sentence_from_list` (wizard_data.py:191-211).  The 1- and
2-element branches are f-strings (so they stringify any value); the 3+ branch
joins `items[:-1]` with `", "`, which raises on non-string elements. -/
def _build_sentence_from_list (items : List Val) (pre : String) (suf : String) : Option String :=
  match items with
  | [] => some ""
  | [x] => some (pre ++ pyToStr x ++ suf)
  | [x, y] => some (pre ++ pyToStr x ++ " and " ++ pyToStr y ++ suf)
  | x :: y :: z :: rest => do
    let front ← joinValsComma ((x :: y :: z :: rest).dropLast)
    pure (pre ++ front ++ ", and " ++ pyToStr ((z :: rest).getLast (by simp)) ++ suf)

/-- Embeds `_get_custom_value` (wizard_data.py:214-226). -/
def _get_custom_value (session_state : PyDict) (key enable_key : String) : Val :=
  if truthy (dgetD session_state enable_key (Val.vBool false)) then
    dgetD session_state key (Val.vStr "")
  else Val.vStr ""

/-- Embeds `_build_presentation_data` (wizard_data.py:288-326). -/
def _build_presentation_data (session_state : PyDict) : Option Val := do
  let selected_users := _collect_checkbox_values session_state "pres_user_"
  let selected_interactions := _collect_checkbox_values session_state "pres_interact_"
  let selected_tools := _collect_checkbox_values session_state "pres_tool_"
  let selected_auth_pres := _collect_checkbox_values session_state "pres_auth_"
  let custom_users := _get_custom_value session_state "pres_user_custom" "pres_user_custom_enable"
  let custom_interact := _get_custom_value session_state "pres_interact_custom" "pres_interact_custom_enable"
  let custom_tool := _get_custom_value session_state "pres_tool_custom" "pres_tool_custom_enable"
  let custom_auth := _get_custom_value session_state "pres_auth_other_text" "pres_auth_other_enable"
  let selected_users := if truthy custom_users then selected_users ++ [custom_users] else selected_users
  let selected_interactions := if truthy custom_interact then selected_interactions ++ [custom_interact] else selected_interactions
  let selected_tools := if truthy custom_tool then selected_tools ++ [custom_tool] else selected_tools
  let selected_auth_pres := if truthy custom_auth then selected_auth_pres ++ [custom_auth] else selected_auth_pres
  let users_sentence ← _build_sentence_from_list selected_users "This solution targets " "."
  let interaction_sentence ← _build_sentence_from_list selected_interactions "Users will interact with the solution via " "."
  let tools_sentence ← _build_sentence_from_list selected_tools "The presentation layer will be built using " "."
  let auth_sentence ← _build_sentence_from_list selected_auth_pres "Presentation authentication will use " "."
  pure (Val.vDict [
    ("users", Val.vStr users_sentence),
    ("interaction", Val.vStr interaction_sentence),
    ("tools", Val.vStr tools_sentence),
    ("auth", Val.vStr auth_sentence),
    ("selections", Val.vDict [
      ("users", Val.vList selected_users),
      ("interactions", Val.vList selected_interactions),
      ("tools", Val.vList selected_tools),
      ("auth", Val.vList selected_auth_pres)])])

/-- Python `[v.strip() for v in x.split(",")]`: raises unless `x` is a
string. -/
def pySplitStripVals (v : Val) : Option (List Val) :=
  match v with
  | Val.vStr s => some ((pySplit s ",").map (fun x => Val.vStr (pyStrip x)))
  | _ => none

/-- Embeds `_build_intent_data` (wizard_data.py:329-353). -/
def _build_intent_data (session_state : PyDict) : Option Val := do
  let selected_intent_devs := _collect_checkbox_values session_state "intent_dev_"
  let selected_intent_prov := _collect_checkbox_values session_state "intent_prov_"
  let custom_dev := _get_custom_value session_state "intent_dev_custom" "intent_dev_custom_enable"
  let custom_prov := _get_custom_value session_state "intent_prov_custom" "intent_prov_custom_enable"
  let selected_intent_devs ←
    if truthy custom_dev then do
      let parts ← pySplitStripVals custom_dev
      pure (selected_intent_devs ++ parts)
    else pure selected_intent_devs
  let selected_intent_prov ←
    if truthy custom_prov then do
      let parts ← pySplitStripVals custom_prov
      pure (selected_intent_prov ++ parts)
    else pure selected_intent_prov
  let dev_sentence ← _build_sentence_from_list selected_intent_devs "We will develop " "."
  let prov_sentence ← _build_sentence_from_list selected_intent_prov "We will use existing " "."
  pure (Val.vDict [
    ("development", Val.vStr dev_sentence),
    ("provided", Val.vStr prov_sentence),
    ("selections", Val.vDict [
      ("development", Val.vList selected_intent_devs),
      ("provided", Val.vList selected_intent_prov)])])

/-- Embeds `_build_observability_data` (wizard_data.py:356-389). -/
def _build_observability_data (session_state : PyDict) : Option Val := do
  let selected_methods := _collect_checkbox_values session_state "obs_state_"
  let selected_tools_obs := _collect_checkbox_values session_state "obs_tool_"
  let custom_tools := _get_custom_value session_state "obs_tool_other_text" "obs_tool_other_enable"
  let selected_tools_obs := if truthy custom_tools then selected_tools_obs ++ [custom_tools] else selected_tools_obs
  let methods_sentence ← _build_sentence_from_list selected_methods "State will be represented using " "."
  let tools_sentence ← _build_sentence_from_list selected_tools_obs "Observability tools include " "."
  let go_no_go_text := dgetD session_state "obs_go_no_go" (Val.vStr "")
  let add_logic_choice := dgetD session_state "obs_add_logic_choice" (Val.vStr "")
  let add_logic_text := dgetD session_state "obs_add_logic_text" (Val.vStr "")
  let add_logic_sentence :=
    if add_logic_choice == Val.vStr "Yes" && truthy add_logic_text then
      "Additional gating logic: " ++ pyToStr add_logic_text
    else ""
  pure (Val.vDict [
    ("methods", Val.vStr methods_sentence),
    ("go_no_go", go_no_go_text),
    ("additional_logic", Val.vStr add_logic_sentence),
    ("tools", Val.vStr tools_sentence),
    ("selections", Val.vDict [
      ("methods", Val.vList selected_methods),
      ("go_no_go_text", go_no_go_text),
      ("additional_logic_enabled", Val.vBool (add_logic_choice == Val.vStr "Yes")),
      ("additional_logic_text", add_logic_text),
      ("tools", Val.vList selected_tools_obs)])])

/-- Embeds `_build_orchestration_data` (wizard_data.py:392-412). -/
def _build_orchestration_data (session_state : PyDict) : Val :=
  let orch_choice := dgetD session_state "orch_choice" (Val.vStr "— Select one —")
  let orch_details := dgetD session_state "orch_details_text" (Val.vStr "")
  let orch_sentence :=
    if truthy orch_choice && orch_choice != Val.vStr "— Select one —" then
      if orch_choice == Val.vStr "No" then "No orchestration is required for this solution."
      else if truthy orch_details then
        "Orchestration will be handled using " ++ pyToStr orch_choice ++ ": " ++ pyToStr orch_details
      else
        "Orchestration will be handled using " ++ pyToStr orch_choice ++ "."
    else ""
  Val.vDict [
    ("summary", Val.vStr orch_sentence),
    ("selections", Val.vDict [
      ("choice", orch_choice),
      ("details", orch_details)])]

/-- Embeds `_build_collector_data` (wizard_data.py:415-480). -/
def _build_collector_data (session_state : PyDict) : Option Val := do
  let selected_methods := _collect_checkbox_values session_state "collector_method_"
  let selected_auth := _collect_checkbox_values session_state "collector_auth_"
  let selected_handling := _collect_checkbox_values session_state "collector_handle_"
  let selected_norm := _collect_checkbox_values session_state "collector_norm_"
  let selected_tools := _collect_checkbox_values session_state "collection_tool_"
  let custom_method := _get_custom_value session_state "collector_methods_other" "collector_methods_other_enable"
  let custom_auth := _get_custom_value session_state "collector_auth_other" "collector_auth_other_enable"
  let custom_handling := _get_custom_value session_state "collector_handling_other" "collector_handling_other_enable"
  let custom_norm := _get_custom_value session_state "collector_norm_other" "collector_norm_other_enable"
  let custom_tools := _get_custom_value session_state "collection_tools_other" "collection_tools_other_enable"
  let selected_methods := if truthy custom_method then selected_methods ++ [custom_method] else selected_methods
  let selected_auth := if truthy custom_auth then selected_auth ++ [custom_auth] else selected_auth
  let selected_handling := if truthy custom_handling then selected_handling ++ [custom_handling] else selected_handling
  let selected_norm := if truthy custom_norm then selected_norm ++ [custom_norm] else selected_norm
  let selected_tools := if truthy custom_tools then selected_tools ++ [custom_tools] else selected_tools
  let methods_sentence ← _build_sentence_from_list selected_methods "Data will be collected using " "."
  let auth_sentence ← _build_sentence_from_list selected_auth "Collection authentication will use " "."
  let handling_sentence ← _build_sentence_from_list selected_handling "Data will be handled using " "."
  let norm_sentence ← _build_sentence_from_list selected_norm "Data will be normalized using " "."
  let devices := dgetD session_state "collector_devices" (Val.vStr "")
  let metrics := dgetD session_state "collector_metrics" (Val.vStr "")
  let cadence := dgetD session_state "collector_cadence" (Val.vStr "")
  let scale_sentence :=
    if truthy devices || truthy metrics || truthy cadence then
      let scale_parts :=
        (if truthy devices then ["devices/scope: " ++ pyToStr devices] else []) ++
        (if truthy metrics then ["metrics: " ++ pyToStr metrics] else []) ++
        (if truthy cadence then ["cadence: " ++ pyToStr cadence] else [])
      "Scale considerations: " ++ pyJoin "; " scale_parts ++ "."
    else ""
  let tools_sentence ← _build_sentence_from_list selected_tools "Collection tools include " "."
  pure (Val.vDict [
    ("methods", Val.vStr methods_sentence),
    ("auth", Val.vStr auth_sentence),
    ("handling", Val.vStr handling_sentence),
    ("normalization", Val.vStr norm_sentence),
    ("scale", Val.vStr scale_sentence),
    ("tools", Val.vStr tools_sentence),
    ("selections", Val.vDict [
      ("methods", Val.vList selected_methods),
      ("auth", Val.vList selected_auth),
      ("handling", Val.vList selected_handling),
      ("normalization", Val.vList selected_norm),
      ("devices", devices),
      ("metrics_per_sec", metrics),
      ("cadence", cadence),
      ("tools", Val.vList selected_tools)])])

/-- Embeds `_build_executor_data` (wizard_data.py:483-499). -/
def _build_executor_data (session_state : PyDict) : Option Val := do
  let selected_exec := _collect_checkbox_values session_state "exec_"
  let custom_exec := _get_custom_value session_state "exec_custom_text" "exec_custom_enable"
  let selected_exec ←
    if truthy custom_exec then do
      let parts ← pySplitStripVals custom_exec
      pure (selected_exec ++ parts)
    else pure selected_exec
  let exec_sentence ← _build_sentence_from_list selected_exec "Changes will be executed using " "."
  pure (Val.vDict [
    ("methods", Val.vStr exec_sentence),
    ("selections", Val.vDict [
      ("methods", Val.vList selected_exec)])])

/-- Embeds `_build_dependencies_data` (wizard_data.py:502-520). -/
def _build_dependencies_data (session_state : PyDict) : List Val :=
  let dependencies := (session_state.filter
      (fun p => pyStartsWith p.1 "dep_" && !pyEndsWith p.1 "_details" && truthy p.2)).map
    (fun p =>
      let dep_key := pyReplace p.1 "dep_" ""
      Val.vDict [
        ("name", Val.vStr dep_key),
        ("details", dgetD session_state ("dep_" ++ dep_key ++ "_details") (Val.vStr ""))])
  if dependencies.isEmpty then
    [Val.vDict [("name", Val.vStr "Network Infrastructure"), ("details", Val.vStr "")],
     Val.vDict [("name", Val.vStr "Revision Control system"), ("details", Val.vStr "GitHub")]]
  else dependencies

/-- The inner while-loop of `_build_timeline_data` (wizard_data.py:550-554):
advance one calendar day at a time, counting only Monday-Friday days, until
`duration` days have been counted ("simplified - weekends only").  The fuel
is chosen large enough at every call site (`7 * duration + 7`). -/
def _wd_advance (fuel : Nat) (cursor : Int) (days_added duration : Int) : Int :=
  match fuel with
  | 0 => cursor
  | f + 1 =>
    if days_added < duration then
      let c := cursor + 1
      if weekday c < 5 then _wd_advance f c (days_added + 1) duration
      else _wd_advance f c days_added duration
    else cursor

/-- A scheduled milestone of `_build_timeline_data`; `stop` is the `end`
field of the Python dict (`end` is a Lean keyword). -/
structure WdItem where
  name : Val
  duration_bd : Int
  start : Int
  stop : Int
  notes : Val

/-- The milestone loop of `_build_timeline_data` (wizard_data.py:544-564):
returns the schedule together with the final cursor and accumulated
`total_bd`. -/
def _wd_schedule (milestones : List Val) (cursor : Int) (total_bd : Int) :
    Option (List WdItem × Int × Int) :=
  match milestones with
  | [] => some ([], cursor, total_bd)
  | m :: rest => do
    let duration_v ← pyGetD m "duration_bd" (Val.vInt 0)
    let duration ← (match duration_v with
      | Val.vInt n => some n
      | Val.vBool b => some (if b then (1 : Int) else 0)
      | _ => none)
    let total_bd := total_bd + duration
    let start := cursor
    let cursor := _wd_advance (7 * duration.toNat + 7) cursor 0 duration
    let stop := cursor - 1
    let nm ← pyGetD m "name" (Val.vStr "")
    let nt ← pyGetD m "notes" (Val.vStr "")
    let rec_result ← _wd_schedule rest cursor total_bd
    pure (⟨nm, duration, start, stop, nt⟩ :: rec_result.1, rec_result.2)

/-- Embeds `_build_timeline_data` (wizard_data.py:523-585).  `today` stands
for `datetime.datetime.today().date()`.  Note the string branch parses with
`strptime` and has no exception handler, so an unparsable string raises
(`none`). -/
def _build_timeline_data (today : Int) (session_state : PyDict) : Option Val := do
  let start_date ←
    (match dget session_state "timeline_start_date" with
     | Val.vStr s => parseYMD s
     | Val.vDate o => some o
     | _ => some today)
  let build_buy := dgetD session_state "timeline_build_buy" (Val.vStr "Build In-House")
  let staff_count ← pyToInt (dgetD session_state "timeline_staff_count" (Val.vInt 0))
  let external_staff_count ← pyToInt (dgetD session_state "timeline_external_staff_count" (Val.vInt 0))
  let staffing_plan := dgetD session_state "timeline_staffing_plan" (Val.vStr "")
  let holiday_region := dgetD session_state "timeline_holiday_region" (Val.vStr "None")
  let milestones ← pyIter (dgetD session_state "timeline_milestones" (Val.vList []))
  let sched ← _wd_schedule milestones start_date 0
  let schedule := sched.1
  let total_bd := sched.2.2
  pure (Val.vDict [
    ("start_date", Val.vStr (formatYMD start_date)),
    ("total_business_days", Val.vInt total_bd),
    ("projected_completion",
      match schedule.getLast? with
      | some i => Val.vStr (formatYMD i.stop)
      | none => Val.vNone),
    ("build_buy", build_buy),
    ("staff_count", Val.vInt staff_count),
    ("external_staff_count", Val.vInt external_staff_count),
    ("staffing_plan_md", staffing_plan),
    ("holiday_region", holiday_region),
    ("items", Val.vList (schedule.map (fun i => Val.vDict [
      ("name", i.name),
      ("duration_bd", Val.vInt i.duration_bd),
      ("start", Val.vStr (formatYMD i.start)),
      ("end", Val.vStr (formatYMD i.stop)),
      ("notes", i.notes)])))])

/-- Embeds `build_wizard_payload` (wizard_data.py:229-285).  `today` stands
for `datetime.datetime.today().date()` (used only when the start date is
absent or mistyped).  The local `deployment_strategy` mirrors the dead local
of the source (wizard_data.py:240-242): it is computed and never used — the
payload stores the raw session values. -/
def build_wizard_payload (today : Int) (session_state : PyDict) : Option PyDict := do
  let deployment_strategy := dgetD session_state "_wizard_deployment_strategy" (Val.vStr "")
  let deployment_strategy :=
    if deployment_strategy == Val.vStr "Other" then
      dgetD session_state "_wizard_deployment_strategy_other" (Val.vStr "")
    else deployment_strategy
  let category := dgetD session_state "_wizard_category" (Val.vStr "")
  let category_other := dgetD session_state "_wizard_category_other" (Val.vStr "")
  let stakeholders_other ←
    (match pyOr (dget session_state "stakeholders_other_text") (Val.vStr "") with
     | Val.vStr s => some (pyStrip s)
     | _ => none)
  let presentation ← _build_presentation_data session_state
  let intent ← _build_intent_data session_state
  let observability ← _build_observability_data session_state
  let orchestration := _build_orchestration_data session_state
  let collector ← _build_collector_data session_state
  let executor ← _build_executor_data session_state
  let dependencies := _build_dependencies_data session_state
  let timeline ← _build_timeline_data today session_state
  let _ := deployment_strategy
  pure [
    ("initiative", Val.vDict [
      ("author", dgetD session_state "_wizard_author" (Val.vStr "")),
      ("title", dgetD session_state "_wizard_automation_title" (Val.vStr "")),
      ("description", dgetD session_state "_wizard_automation_description" (Val.vStr "")),
      ("category", category),
      ("category_other", category_other),
      ("problem_statement", dgetD session_state "_wizard_problem_statement" (Val.vStr "")),
      ("expected_use", dgetD session_state "_wizard_expected_use" (Val.vStr "")),
      ("error_conditions", dgetD session_state "_wizard_error_conditions" (Val.vStr "")),
      ("assumptions", dgetD session_state "_wizard_assumptions" (Val.vStr "")),
      ("deployment_strategy", dgetD session_state "_wizard_deployment_strategy" (Val.vStr "")),
      ("deployment_strategy_other", dgetD session_state "_wizard_deployment_strategy_other" (Val.vStr "")),
      ("deployment_strategy_description", dgetD session_state "_wizard_deployment_strategy_description" (Val.vStr "")),
      ("out_of_scope", dgetD session_state "_wizard_out_of_scope" (Val.vStr "")),
      ("no_move_forward", dgetD session_state "no_move_forward" (Val.vStr "")),
      ("no_move_forward_reasons", dgetD session_state "no_move_forward_reasons" (Val.vList []))]),
    ("my_role", Val.vDict [
      ("who", dgetD session_state "my_role_who" (Val.vStr "")),
      ("skills", dgetD session_state "my_role_skills" (Val.vStr "")),
      ("developer", dgetD session_state "my_role_dev" (Val.vStr ""))]),
    ("stakeholders", Val.vDict [
      ("choices", dgetD session_state "stakeholders_choices" (Val.vDict [])),
      ("other", Val.vStr stakeholders_other)]),
    ("presentation", presentation),
    ("intent", intent),
    ("observability", observability),
    ("orchestration", orchestration),
    ("collector", collector),
    ("executor", executor),
    ("dependencies", Val.vList dependencies),
    ("timeline", timeline)]

/-! ### `wizard_data.py` — state restorer

`restore_session_state_from_data` reads the two catalog files
`deployment_strategies.yml` and `use_case_categories.yml` next to
`wizard_data.py`; those files are not part of the sources here, and the spec
treats them as external catalogs consumed by key list only (spec §6), so the
restorer below is parameterized by the two key lists (`deploy_options`,
`category_options`), exactly the lists the Python code derives from the YAML
files.  The restorer is split into one Lean definition per section of the
Python function; the main definition chains them in source order. -/

/-- Python loop `for x in lst: updates[f"<pre>{x}"] = True` applied when the
guarded value is a list (used by all the checkbox-selection restores). -/
def dsetTrueAll (updates : PyDict) (pre : String) (v : Val) : PyDict :=
  match v with
  | Val.vList l => l.foldl (fun u it => dset u (pre ++ pyToStr it) (Val.vBool true)) updates
  | _ => updates

/-- Python pattern `if src.get(field) is not None: updates[key] = str(src.get(field) or "")`,
the recurring scalar-field restore step. -/
def restoreStrField (src : Val) (field key : String) (updates : PyDict) : Option PyDict := do
  let t ← pyGet src field
  pure (if t != Val.vNone then dset updates key (Val.vStr (pyToStr (pyOr t (Val.vStr "")))) else updates)

/-- Python pattern `if src.get(field) and isinstance(src.get(field), list):
for x in ...: updates[f"<pre>{x}"] = True`, the recurring checkbox-list
restore step. -/
def restoreListField (src : Val) (field pre : String) (updates : PyDict) : Option PyDict := do
  let v ← pyGet src field
  pure (if truthy v && isList v then dsetTrueAll updates pre v else updates)

/-- Python pattern `if src.get(field) is not None: updates[key] =
int(src.get(field) or 0)`, the recurring count restore step. -/
def restoreIntField (src : Val) (field key : String) (updates : PyDict) : Option PyDict := do
  let v ← pyGet src field
  if v != Val.vNone then do
    let n ← pyToInt (pyOr v (Val.vInt 0))
    pure (dset updates key (Val.vInt n))
  else pure updates

/-- Deployment-strategy block of the initiative restore
(wizard_data.py:614-636): catalog membership decides standard vs "Other",
empty or placeholder restores the sentinel. -/
def restore_ini_deployment (deploy_options : List String) (ini : Val)
    (updates : PyDict) : Option PyDict := do
  let dsv ← pyGet ini "deployment_strategy"
  pure (if dsv != Val.vNone then
      let deploy_strategy := pyToStr (pyOr dsv (Val.vStr ""))
      if deploy_options.contains deploy_strategy then
        dset (dset updates "_wizard_deployment_strategy" (Val.vStr deploy_strategy))
          "_wizard_deployment_strategy_other" (Val.vStr "")
      else if deploy_strategy != "" && deploy_strategy != "— Select a deployment strategy —" then
        dset (dset updates "_wizard_deployment_strategy" (Val.vStr "Other"))
          "_wizard_deployment_strategy_other" (Val.vStr deploy_strategy)
      else
        dset (dset updates "_wizard_deployment_strategy" (Val.vStr "— Select a deployment strategy —"))
          "_wizard_deployment_strategy_other" (Val.vStr "")
    else updates)

/-- No-move-forward-reasons block of the initiative restore
(wizard_data.py:643-645): two consecutive assignments, the second reading the
first back and forcing a list. -/
def restore_ini_reasons (ini : Val) (updates : PyDict) : Option PyDict := do
  let t ← pyGet ini "no_move_forward_reasons"
  if t != Val.vNone then do
    let r ← pyGetD ini "no_move_forward_reasons" (Val.vList [])
    let updates := dset updates "no_move_forward_reasons" (pyOr r (Val.vList []))
    let v := dget updates "no_move_forward_reasons"
    pure (dset updates "no_move_forward_reasons" (if isList v then v else Val.vList []))
  else pure updates

/-- Category block of the initiative restore (wizard_data.py:648-663):
catalog membership decides standard vs "Other"; the raw value (not its
string form) is stored in the override slot. -/
def restore_ini_category (category_options : List String) (ini : Val)
    (updates : PyDict) : Option PyDict := do
  let cv ← pyGet ini "category"
  pure (if cv != Val.vNone then
      if (match cv with | Val.vStr s => category_options.contains s | _ => false) then
        dset (dset updates "_wizard_category" cv) "_wizard_category_other" (Val.vStr "")
      else
        dset (dset updates "_wizard_category" (Val.vStr "Other")) "_wizard_category_other" cv
    else updates)

/-- Initiative part of `restore_session_state_from_data`
(wizard_data.py:600-663), in source order. -/
def restore_initiative (deploy_options category_options : List String) (ini : Val)
    (updates : PyDict) : Option PyDict := do
  let updates ← restoreStrField ini "title" "_wizard_automation_title" updates
  let updates ← restoreStrField ini "description" "_wizard_automation_description" updates
  let updates ← restoreStrField ini "problem_statement" "_wizard_problem_statement" updates
  let updates ← restoreStrField ini "expected_use" "_wizard_expected_use" updates
  let updates ← restoreStrField ini "error_conditions" "_wizard_error_conditions" updates
  let updates ← restoreStrField ini "assumptions" "_wizard_assumptions" updates
  let updates ← restore_ini_deployment deploy_options ini updates
  let updates ← restoreStrField ini "deployment_strategy_description" "_wizard_deployment_strategy_description" updates
  let updates ← restoreStrField ini "out_of_scope" "_wizard_out_of_scope" updates
  let updates ← restoreStrField ini "no_move_forward" "no_move_forward" updates
  let updates ← restore_ini_reasons ini updates
  restore_ini_category category_options ini updates

/-- Stakeholders part of `restore_session_state_from_data`
(wizard_data.py:665-680). -/
def restore_stakeholders (data : PyDict) (updates : PyDict) : PyDict :=
  let stakeholders := dgetD data "stakeholders" (Val.vDict [])
  match stakeholders with
  | Val.vDict sd =>
    let c := dget sd "choices"
    let updates :=
      if c != Val.vNone && isDict c then dset updates "stakeholders_choices" c
      else dset updates "stakeholders_choices" (Val.vDict [])
    let o := dget sd "other"
    if o != Val.vNone then
      dset updates "stakeholders_other_text" (Val.vStr (pyToStr (pyOr o (Val.vStr ""))))
    else dset updates "stakeholders_other_text" (Val.vStr "")
  | _ =>
    dset (dset updates "stakeholders_choices" (Val.vDict []))
      "stakeholders_other_text" (Val.vStr "")

/-- My-role part of `restore_session_state_from_data`
(wizard_data.py:682-689). -/
def restore_my_role (data : PyDict) (updates : PyDict) : Option PyDict := do
  let my_role := pyOr (dgetD data "my_role" (Val.vDict [])) (Val.vDict [])
  let updates ← restoreStrField my_role "who" "my_role_who" updates
  let updates ← restoreStrField my_role "skills" "my_role_skills" updates
  restoreStrField my_role "developer" "my_role_dev" updates

/-- Presentation part of `restore_session_state_from_data`
(wizard_data.py:691-705). -/
def restore_presentation (data : PyDict) (updates : PyDict) : Option PyDict := do
  let pres := pyOr (dgetD data "presentation" (Val.vDict [])) (Val.vDict [])
  let pres_sel := pyOr (← pyGetD pres "selections" (Val.vDict [])) (Val.vDict [])
  let updates ← restoreListField pres_sel "users" "pres_user_" updates
  let updates ← restoreListField pres_sel "interactions" "pres_interact_" updates
  let updates ← restoreListField pres_sel "tools" "pres_tool_" updates
  restoreListField pres_sel "auth" "pres_auth_" updates

/-- Intent part of `restore_session_state_from_data`
(wizard_data.py:707-715). -/
def restore_intent (data : PyDict) (updates : PyDict) : Option PyDict := do
  let intent := pyOr (dgetD data "intent" (Val.vDict [])) (Val.vDict [])
  let intent_sel := pyOr (← pyGetD intent "selections" (Val.vDict [])) (Val.vDict [])
  let updates ← restoreListField intent_sel "development" "intent_dev_" updates
  restoreListField intent_sel "provided" "intent_prov_" updates

/-- Observability part of `restore_session_state_from_data`
(wizard_data.py:717-731).  Note it reads `additional_logic_choice`, a key the
builder never writes (the builder stores `additional_logic_enabled`). -/
def restore_observability (data : PyDict) (updates : PyDict) : Option PyDict := do
  let obs := pyOr (dgetD data "observability" (Val.vDict [])) (Val.vDict [])
  let obs_sel := pyOr (← pyGetD obs "selections" (Val.vDict [])) (Val.vDict [])
  let updates ← restoreListField obs_sel "methods" "obs_state_" updates
  let updates ← restoreListField obs_sel "tools" "obs_tool_" updates
  let updates ← restoreStrField obs "go_no_go" "obs_go_no_go" updates
  let updates ← restoreStrField obs_sel "additional_logic_choice" "obs_add_logic_choice" updates
  restoreStrField obs_sel "additional_logic_text" "obs_add_logic_text" updates

/-- Orchestration part of `restore_session_state_from_data`
(wizard_data.py:733-739). -/
def restore_orchestration (data : PyDict) (updates : PyDict) : Option PyDict := do
  let orch := pyOr (dgetD data "orchestration" (Val.vDict [])) (Val.vDict [])
  let orch_sel := pyOr (← pyGetD orch "selections" (Val.vDict [])) (Val.vDict [])
  let updates ← restoreStrField orch_sel "choice" "orch_choice" updates
  restoreStrField orch_sel "details" "orch_details_text" updates

/-- Collector part of `restore_session_state_from_data`
(wizard_data.py:741-764). -/
def restore_collector (data : PyDict) (updates : PyDict) : Option PyDict := do
  let coll := pyOr (dgetD data "collector" (Val.vDict [])) (Val.vDict [])
  let coll_sel := pyOr (← pyGetD coll "selections" (Val.vDict [])) (Val.vDict [])
  let updates ← restoreListField coll_sel "methods" "collector_method_" updates
  let updates ← restoreListField coll_sel "auth" "collector_auth_" updates
  let updates ← restoreListField coll_sel "handling" "collector_handle_" updates
  let updates ← restoreListField coll_sel "normalization" "collector_norm_" updates
  let updates ← restoreListField coll_sel "tools" "collection_tool_" updates
  let updates ← restoreStrField coll_sel "devices" "collector_devices" updates
  let updates ← restoreStrField coll_sel "metrics_per_sec" "collector_metrics" updates
  restoreStrField coll_sel "cadence" "collector_cadence" updates

/-- Executor part of `restore_session_state_from_data`
(wizard_data.py:766-771): sets `exec_{i}` by *index* of the method in the
document's list, not by its label. -/
def restore_executor (data : PyDict) (updates : PyDict) : Option PyDict := do
  let exec_data := pyOr (dgetD data "executor" (Val.vDict [])) (Val.vDict [])
  let exec_sel := pyOr (← pyGetD exec_data "selections" (Val.vDict [])) (Val.vDict [])
  let v ← pyGet exec_sel "methods"
  pure (if truthy v && isList v then
      match v with
      | Val.vList l => l.enum.foldl (fun u p => dset u ("exec_" ++ toString p.1) (Val.vBool true)) updates
      | _ => updates
    else updates)

/-- Dependencies part of `restore_session_state_from_data`
(wizard_data.py:773-779). -/
def restore_dependencies (data : PyDict) (updates : PyDict) : Option PyDict := do
  let deps := pyOr (dgetD data "dependencies" (Val.vList [])) (Val.vList [])
  let depList ← pyIter deps
  depList.foldlM (fun updates dep => do
      let nm ← pyGet dep "name"
      if truthy nm then
        let updates := dset updates ("dep_" ++ pyToStr nm) (Val.vBool true)
        let det ← pyGet dep "details"
        if truthy det then
          pure (dset updates ("dep_" ++ pyToStr nm ++ "_details")
            (Val.vStr (pyToStr (pyOr det (Val.vStr "")))))
        else pure updates
      else pure updates)
    updates

/-- Start-date block of the timeline restore (wizard_data.py:793-798): the
`strptime` call sits in `try/except: pass`, so an unparsable or mistyped
value is simply skipped. -/
def restore_tl_start_date (tl : Val) (updates : PyDict) : Option PyDict := do
  let v ← pyGet tl "start_date"
  pure (if v != Val.vNone then
      match v with
      | Val.vStr s =>
        (match parseYMD s with
         | some o => dset updates "timeline_start_date" (Val.vDate o)
         | none => updates)
      | _ => updates
    else updates)

/-- Items block of the timeline restore (wizard_data.py:799-807). -/
def restore_tl_items (tl : Val) (updates : PyDict) : Option PyDict := do
  let v ← pyGet tl "items"
  if truthy v && isList v then do
    let items ← pyIter v
    let milestones ← items.mapM (fun item => do
        let nm ← pyGetD item "name" (Val.vStr "")
        let dv ← pyGetD item "duration_bd" (Val.vInt 0)
        let d ← pyToInt dv
        let nt ← pyGetD item "notes" (Val.vStr "")
        pure (Val.vDict [
          ("name", Val.vStr (pyToStr nm)),
          ("duration_bd", Val.vInt d),
          ("notes", Val.vStr (pyToStr nt))]))
    pure (dset updates "timeline_milestones" (Val.vList milestones))
  else pure updates

/-- Timeline part of `restore_session_state_from_data`
(wizard_data.py:781-807). -/
def restore_timeline (data : PyDict) (updates : PyDict) : Option PyDict := do
  let tl := pyOr (dgetD data "timeline" (Val.vDict [])) (Val.vDict [])
  let updates ← restoreStrField tl "build_buy" "timeline_build_buy" updates
  let updates ← restoreIntField tl "staff_count" "timeline_staff_count" updates
  let updates ← restoreIntField tl "external_staff_count" "timeline_external_staff_count" updates
  let updates ← restoreStrField tl "staffing_plan_md" "timeline_staffing_plan" updates
  let updates ← restoreStrField tl "holiday_region" "timeline_holiday_region" updates
  let updates ← restore_tl_start_date tl updates
  restore_tl_items tl updates

/-- Embeds `restore_session_state_from_data` (wizard_data.py:588-809),
parameterized by the two external catalogs (see the section comment).  Note
`ini` is `data.get("initiative", {})` with no `or {}` guard, unlike every
other section, so a document whose `initiative` key holds `None` raises
(`none`) at the first `ini.get(...)`. -/
def restore_session_state_from_data (deploy_options category_options : List String)
    (data : PyDict) : Option PyDict := do
  let updates : PyDict := []
  let ini := dgetD data "initiative" (Val.vDict [])
  let updates ← restore_initiative deploy_options category_options ini updates
  let updates := restore_stakeholders data updates
  let updates ← restore_my_role data updates
  let updates ← restore_presentation data updates
  let updates ← restore_intent data updates
  let updates ← restore_observability data updates
  let updates ← restore_orchestration data updates
  let updates ← restore_collector data updates
  let updates ← restore_executor data updates
  let updates ← restore_dependencies data updates
  let updates ← restore_timeline data updates
  pure updates

/-- Modelled from the spec: the deployment-strategy catalog.  The file
`deployment_strategies.yml` is not among the sources; spec §8 gives the
example catalog with the standard values "Canary" and "Blue-Green", which is
what concrete evaluations below use. -/
def spec_deployment_strategies : List String := ["Canary", "Blue-Green"]

/-- Modelled from the spec: the use-case category catalog.  The file
`use_case_categories.yml` is not among the sources; spec §6 describes it as
an ordered name-to-description mapping whose key list is all the core
consumes.  The keys below are category names exercised by the repository's
tests. -/
def spec_use_case_categories : List String := ["Device Onboarding", "Configuration Management"]

/-! ### `pages/20_NAF_Solution_Wizard.py` — business days, schedule, dependency baseline -/

/-- A day counts toward the budget of `_add_business_days`
(20_NAF_Solution_Wizard.py:139): its weekday is Monday-Friday and it is not
in the holiday set (a `None` holiday set behaves as the empty list). -/
def isCountedDay (holiday_set : List Int) (o : Int) : Bool :=
  weekday o < 5 && !holiday_set.contains o

/-- The while-loop of `_add_business_days`: advance one calendar day at a
time, decrementing `days` on counted days.  Structured with fuel so it is a
total structural recursion; `_add_business_days` passes provably sufficient
fuel (see `addBDAux_eq_iterate`). -/
def addBDAux (holiday_set : List Int) : Nat → Int → Nat → Int
  | _, cur, 0 => cur
  | 0, cur, _ + 1 => cur
  | f + 1, cur, days + 1 =>
    let c := cur + 1
    if isCountedDay holiday_set c then addBDAux holiday_set f c days
    else addBDAux holiday_set f c (days + 1)

/-- Embeds `_add_business_days` (20_NAF_Solution_Wizard.py:133-141).
`days = int(n or 0)` is just `n` for an int argument, and the loop runs only
while `days > 0`, hence `n.toNat`. -/
def _add_business_days (d : Int) (n : Int) (holiday_set : List Int) : Int :=
  addBDAux holiday_set (7 * (holiday_set.length + 1) * n.toNat) d n.toNat

/-- Embeds the milestone schedule loop of `solution_wizard_main`
(20_NAF_Solution_Wizard.py:3011-3034): rows with a blank name and
non-positive duration are skipped; otherwise start = cursor, end =
`_add_business_days(start, dur, holiday_set)` when dur > 0 else start, the
cursor moves to the end, and the total accumulates `max(0, dur)`.  Returns
(schedule, final cursor, total_bd). -/
def page_schedule (holiday_set : List Int) :
    List Val → Int → Int → Option (List WdItem × Int × Int)
  | [], cursor, total_bd => some ([], cursor, total_bd)
  | row :: rest, cursor, total_bd => do
    let nv ← pyGet row "name"
    let name ← (match pyOr nv (Val.vStr "") with
      | Val.vStr s => some (pyStrip s)
      | _ => none)
    let dv ← pyGet row "duration"
    let dur ← pyToInt (pyOr dv (Val.vInt 0))
    let ntv ← pyGet row "notes"
    let notes := pyOr ntv (Val.vStr "")
    if name == "" && dur ≤ 0 then page_schedule holiday_set rest cursor total_bd
    else do
      let start := cursor
      let stop := if dur > 0 then _add_business_days start dur holiday_set else start
      let r ← page_schedule holiday_set rest stop (total_bd + max 0 dur)
      pure (⟨Val.vStr (if name == "" then "(Unnamed)" else name), dur, start, stop, notes⟩ :: r.1,
        r.2)

/-- The documented default dependency pair of the page
(20_NAF_Solution_Wizard.py:235-238, 3151-3154): the baseline against which
"has the user changed anything" is judged. -/
def default_deps : List Val :=
  [Val.vDict [("name", Val.vStr "Network Infrastructure"), ("details", Val.vStr "")],
   Val.vDict [("name", Val.vStr "Revision Control system"), ("details", Val.vStr "GitHub")]]

/-- The `deps_slim` normalization applied before the baseline comparison
(20_NAF_Solution_Wizard.py:3143-3150): keep entries with a truthy name,
strip the details. -/
def deps_slim (deps : List Val) : Option (List Val) :=
  (deps.filterMap (fun d => do
      let nm ← pyGet (pyOr d (Val.vDict [])) "name"
      if truthy nm then
        some (do
          let dt ← pyGetD (pyOr d (Val.vDict [])) "details" (Val.vStr "")
          let ds ← (match dt with | Val.vStr s => some (pyStrip s) | _ => none)
          pure (Val.vDict [("name", nm), ("details", Val.vStr ds)]))
      else none)).mapM id

/-- Strict lexicographic order on char lists (Python string `<`). -/
def charListLt : List Char → List Char → Bool
  | [], [] => false
  | [], _ :: _ => true
  | _ :: _, [] => false
  | a :: as, b :: bs => if a < b then true else if b < a then false else charListLt as bs

/-- Python `<` on strings. -/
def strLt (a b : String) : Bool := charListLt a.data b.data

/-- Python `<` on the `(name, details)` sort key pairs of `_sorted_deps`. -/
def depKeyLt (a b : String × String) : Bool :=
  strLt a.1 b.1 || (a.1 == b.1 && strLt a.2 b.2)

/-- The sort key of `_sorted_deps` (20_NAF_Solution_Wizard.py:72-74):
`(x.get("name") or "", x.get("details") or "")`, both expected strings. -/
def depKey (x : Val) : Option (String × String) := do
  let n ← pyGet x "name"
  let nm ← (match pyOr n (Val.vStr "") with | Val.vStr s => some s | _ => none)
  let d ← pyGet x "details"
  let dt ← (match pyOr d (Val.vStr "") with | Val.vStr s => some s | _ => none)
  pure (nm, dt)

/-- Stable insertion into a key-sorted list (insert after equal keys, as
Python's stable sort orders equal-key elements). -/
def insortDep (x : (String × String) × Val) :
    List ((String × String) × Val) → List ((String × String) × Val)
  | [] => [x]
  | y :: ys => if depKeyLt x.1 y.1 then x :: y :: ys else y :: insortDep x ys

/-- Embeds `_sorted_deps` (20_NAF_Solution_Wizard.py:72-74): stable sort of
the dependency dicts by `(name or "", details or "")`. -/
def _sorted_deps (items : List Val) : Option (List Val) := do
  let keyed ← items.mapM (fun x => (depKey x).map (fun k => (k, x)))
  pure ((keyed.foldl (fun acc x => insortDep x acc) []).map Prod.snd)

/-! ### Auxiliary measures for the business-day proofs -/

/-- Fueled search for the first counted day strictly after `c`; any window of
`7 * (len + 1)` days contains one (`exists_counted_in_window`), so
`nextCountedDay` always passes sufficient fuel. -/
def nextCountedAux (H : List Int) : Nat → Int → Int
  | 0, c => c + 1
  | f + 1, c => if isCountedDay H (c + 1) then c + 1 else nextCountedAux H f (c + 1)

/-- The first counted (business) day strictly after `c`. -/
def nextCountedDay (H : List Int) (c : Int) : Int :=
  nextCountedAux H (7 * (H.length + 1)) c

/-- Number of counted (business) days in the half-open interval `(d, r]`. -/
def countedInWindow (H : List Int) (d r : Int) : Nat :=
  ((Finset.Ioc d r).filter (fun x => isCountedDay H x = true)).card

/-! ### Accessors and concrete inputs used by the claim analyses -/

/-- Field of one section of a built payload. -/
def payloadField (p : Option PyDict) (sect field : String) : Option Val :=
  p.bind (fun d => pyGet (dget d sect) field)

/-- Field of the `selections` sub-object of one section of a built payload. -/
def payloadSel (p : Option PyDict) (sect field : String) : Option Val :=
  p.bind (fun d => (pyGet (dget d sect) "selections").bind (fun sel => pyGet sel field))

/-- Field of the i-th timeline item of a built payload. -/
def payloadItem (p : Option PyDict) (i : Nat) (field : String) : Option Val :=
  p.bind (fun d => (pyGet (dget d "timeline") "items").bind (fun items =>
    match items with
    | Val.vList l => (l.get? i).bind (fun x => pyGet x field)
    | _ => none))

/-- The ordinal of 2024-06-15, used as the fixed "today" in concrete
evaluations whose outcome does not depend on the current date. -/
def someToday : Int := toOrdinal 2024 6 15

/-- Snapshot of the end-to-end scenario of C4. -/
def C4_state : PyDict := [
  ("pres_user_Network Engineers", Val.vBool true),
  ("pres_user_Operations", Val.vBool true),
  ("pres_interact_CLI", Val.vBool true),
  ("timeline_start_date", Val.vStr "2024-01-01"),
  ("timeline_milestones", Val.vList [
    Val.vDict [("name", Val.vStr "Planning"), ("duration_bd", Val.vInt 5), ("notes", Val.vStr "")],
    Val.vDict [("name", Val.vStr "Design"), ("duration_bd", Val.vInt 10), ("notes", Val.vStr "")]])]

/-- The same two milestones as rows of the page's schedule loop (whose rows
keep the duration under the key "duration"). -/
def C4_rows : List Val := [
  Val.vDict [("name", Val.vStr "Planning"), ("duration", Val.vInt 5), ("notes", Val.vStr "")],
  Val.vDict [("name", Val.vStr "Design"), ("duration", Val.vInt 10), ("notes", Val.vStr "")]]

/-- Snapshot for C5: a blank milestone row (empty name, zero duration)
followed by a named one. -/
def C5_state : PyDict := [
  ("timeline_start_date", Val.vStr "2024-01-01"),
  ("timeline_milestones", Val.vList [
    Val.vDict [("name", Val.vStr ""), ("duration_bd", Val.vInt 0), ("notes", Val.vStr "")],
    Val.vDict [("name", Val.vStr "Design"), ("duration_bd", Val.vInt 10), ("notes", Val.vStr "")]])]

/-- The same rows for the page's schedule loop. -/
def C5_rows : List Val := [
  Val.vDict [("name", Val.vStr ""), ("duration", Val.vInt 0), ("notes", Val.vStr "")],
  Val.vDict [("name", Val.vStr "Design"), ("duration", Val.vInt 10), ("notes", Val.vStr "")]]

/-- Snapshot for C2: both single-choice fields left on their sentinel
placeholders. -/
def C2_state : PyDict := [
  ("_wizard_category", Val.vStr "— Select a category —"),
  ("_wizard_deployment_strategy", Val.vStr "— Select a deployment strategy —")]

/-- The document `build_wizard_payload someToday C2_state` actually
produces (checked below by `decide`); the sentinels are stored verbatim. -/
def C2_payload : PyDict := [("initiative", Val.vDict [("author", Val.vStr ""), ("title", Val.vStr ""), ("description", Val.vStr ""), ("category", Val.vStr "— Select a category —"), ("category_other", Val.vStr ""), ("problem_statement", Val.vStr ""), ("expected_use", Val.vStr ""), ("error_conditions", Val.vStr ""), ("assumptions", Val.vStr ""), ("deployment_strategy", Val.vStr "— Select a deployment strategy —"), ("deployment_strategy_other", Val.vStr ""), ("deployment_strategy_description", Val.vStr ""), ("out_of_scope", Val.vStr ""), ("no_move_forward", Val.vStr ""), ("no_move_forward_reasons", Val.vList [])]),
  ("my_role", Val.vDict [("who", Val.vStr ""), ("skills", Val.vStr ""), ("developer", Val.vStr "")]),
  ("stakeholders", Val.vDict [("choices", Val.vDict []), ("other", Val.vStr "")]),
  ("presentation", Val.vDict [("users", Val.vStr ""), ("interaction", Val.vStr ""), ("tools", Val.vStr ""), ("auth", Val.vStr ""), ("selections", Val.vDict [("users", Val.vList []), ("interactions", Val.vList []), ("tools", Val.vList []), ("auth", Val.vList [])])]),
  ("intent", Val.vDict [("development", Val.vStr ""), ("provided", Val.vStr ""), ("selections", Val.vDict [("development", Val.vList []), ("provided", Val.vList [])])]),
  ("observability", Val.vDict [("methods", Val.vStr ""), ("go_no_go", Val.vStr ""), ("additional_logic", Val.vStr ""), ("tools", Val.vStr ""), ("selections", Val.vDict [("methods", Val.vList []), ("go_no_go_text", Val.vStr ""), ("additional_logic_enabled", Val.vBool false), ("additional_logic_text", Val.vStr ""), ("tools", Val.vList [])])]),
  ("orchestration", Val.vDict [("summary", Val.vStr ""), ("selections", Val.vDict [("choice", Val.vStr "— Select one —"), ("details", Val.vStr "")])]),
  ("collector", Val.vDict [("methods", Val.vStr ""), ("auth", Val.vStr ""), ("handling", Val.vStr ""), ("normalization", Val.vStr ""), ("scale", Val.vStr ""), ("tools", Val.vStr ""), ("selections", Val.vDict [("methods", Val.vList []), ("auth", Val.vList []), ("handling", Val.vList []), ("normalization", Val.vList []), ("devices", Val.vStr ""), ("metrics_per_sec", Val.vStr ""), ("cadence", Val.vStr ""), ("tools", Val.vList [])])]),
  ("executor", Val.vDict [("methods", Val.vStr ""), ("selections", Val.vDict [("methods", Val.vList [])])]),
  ("dependencies", Val.vList [Val.vDict [("name", Val.vStr "Network Infrastructure"), ("details", Val.vStr "")], Val.vDict [("name", Val.vStr "Revision Control system"), ("details", Val.vStr "GitHub")]]),
  ("timeline", Val.vDict [("start_date", Val.vStr "2024-06-15"), ("total_business_days", Val.vInt 0), ("projected_completion", Val.vNone), ("build_buy", Val.vStr "Build In-House"), ("staff_count", Val.vInt 0), ("external_staff_count", Val.vInt 0), ("staffing_plan_md", Val.vStr ""), ("holiday_region", Val.vStr "None"), ("items", Val.vList [])])]

/-- Snapshot for C3: deployment strategy on "Other" with override text. -/
def C3_state : PyDict := [
  ("_wizard_deployment_strategy", Val.vStr "Other"),
  ("_wizard_deployment_strategy_other", Val.vStr "My Plan")]

/-- Snapshot for C1: author, title and description filled in. -/
def C1_state : PyDict := [
  ("_wizard_author", Val.vStr "Alice Johnson"),
  ("_wizard_automation_title", Val.vStr "Round Trip Test"),
  ("_wizard_automation_description", Val.vStr "Testing round trip")]

/-- The document `build_wizard_payload 738886 C1_state` produces. -/
def C1_payload : PyDict := [("initiative", Val.vDict [("author", Val.vStr "Alice Johnson"), ("title", Val.vStr "Round Trip Test"), ("description", Val.vStr "Testing round trip"), ("category", Val.vStr ""), ("category_other", Val.vStr ""), ("problem_statement", Val.vStr ""), ("expected_use", Val.vStr ""), ("error_conditions", Val.vStr ""), ("assumptions", Val.vStr ""), ("deployment_strategy", Val.vStr ""), ("deployment_strategy_other", Val.vStr ""), ("deployment_strategy_description", Val.vStr ""), ("out_of_scope", Val.vStr ""), ("no_move_forward", Val.vStr ""), ("no_move_forward_reasons", Val.vList [])]),
  ("my_role", Val.vDict [("who", Val.vStr ""), ("skills", Val.vStr ""), ("developer", Val.vStr "")]),
  ("stakeholders", Val.vDict [("choices", Val.vDict []), ("other", Val.vStr "")]),
  ("presentation", Val.vDict [("users", Val.vStr ""), ("interaction", Val.vStr ""), ("tools", Val.vStr ""), ("auth", Val.vStr ""), ("selections", Val.vDict [("users", Val.vList []), ("interactions", Val.vList []), ("tools", Val.vList []), ("auth", Val.vList [])])]),
  ("intent", Val.vDict [("development", Val.vStr ""), ("provided", Val.vStr ""), ("selections", Val.vDict [("development", Val.vList []), ("provided", Val.vList [])])]),
  ("observability", Val.vDict [("methods", Val.vStr ""), ("go_no_go", Val.vStr ""), ("additional_logic", Val.vStr ""), ("tools", Val.vStr ""), ("selections", Val.vDict [("methods", Val.vList []), ("go_no_go_text", Val.vStr ""), ("additional_logic_enabled", Val.vBool false), ("additional_logic_text", Val.vStr ""), ("tools", Val.vList [])])]),
  ("orchestration", Val.vDict [("summary", Val.vStr ""), ("selections", Val.vDict [("choice", Val.vStr "— Select one —"), ("details", Val.vStr "")])]),
  ("collector", Val.vDict [("methods", Val.vStr ""), ("auth", Val.vStr ""), ("handling", Val.vStr ""), ("normalization", Val.vStr ""), ("scale", Val.vStr ""), ("tools", Val.vStr ""), ("selections", Val.vDict [("methods", Val.vList []), ("auth", Val.vList []), ("handling", Val.vList []), ("normalization", Val.vList []), ("devices", Val.vStr ""), ("metrics_per_sec", Val.vStr ""), ("cadence", Val.vStr ""), ("tools", Val.vList [])])]),
  ("executor", Val.vDict [("methods", Val.vStr ""), ("selections", Val.vDict [("methods", Val.vList [])])]),
  ("dependencies", Val.vList [Val.vDict [("name", Val.vStr "Network Infrastructure"), ("details", Val.vStr "")], Val.vDict [("name", Val.vStr "Revision Control system"), ("details", Val.vStr "GitHub")]]),
  ("timeline", Val.vDict [("start_date", Val.vStr "2024-01-01"), ("total_business_days", Val.vInt (0)), ("projected_completion", Val.vNone), ("build_buy", Val.vStr "Build In-House"), ("staff_count", Val.vInt (0)), ("external_staff_count", Val.vInt (0)), ("staffing_plan_md", Val.vStr ""), ("holiday_region", Val.vStr "None"), ("items", Val.vList [])])]

/-- Restore stage 1 of the C1 round trip (state of `updates` after the first 1 section restorers). -/
def C1_u1 : PyDict := [("_wizard_automation_title", Val.vStr "Round Trip Test"),
  ("_wizard_automation_description", Val.vStr "Testing round trip"),
  ("_wizard_problem_statement", Val.vStr ""),
  ("_wizard_expected_use", Val.vStr ""),
  ("_wizard_error_conditions", Val.vStr ""),
  ("_wizard_assumptions", Val.vStr ""),
  ("_wizard_deployment_strategy", Val.vStr "— Select a deployment strategy —"),
  ("_wizard_deployment_strategy_other", Val.vStr ""),
  ("_wizard_deployment_strategy_description", Val.vStr ""),
  ("_wizard_out_of_scope", Val.vStr ""),
  ("no_move_forward", Val.vStr ""),
  ("no_move_forward_reasons", Val.vList []),
  ("_wizard_category", Val.vStr "Other"),
  ("_wizard_category_other", Val.vStr "")]

/-- Restore stage 2 of the C1 round trip (state of `updates` after the first 2 section restorers). -/
def C1_u2 : PyDict := [("_wizard_automation_title", Val.vStr "Round Trip Test"),
  ("_wizard_automation_description", Val.vStr "Testing round trip"),
  ("_wizard_problem_statement", Val.vStr ""),
  ("_wizard_expected_use", Val.vStr ""),
  ("_wizard_error_conditions", Val.vStr ""),
  ("_wizard_assumptions", Val.vStr ""),
  ("_wizard_deployment_strategy", Val.vStr "— Select a deployment strategy —"),
  ("_wizard_deployment_strategy_other", Val.vStr ""),
  ("_wizard_deployment_strategy_description", Val.vStr ""),
  ("_wizard_out_of_scope", Val.vStr ""),
  ("no_move_forward", Val.vStr ""),
  ("no_move_forward_reasons", Val.vList []),
  ("_wizard_category", Val.vStr "Other"),
  ("_wizard_category_other", Val.vStr ""),
  ("stakeholders_choices", Val.vDict []),
  ("stakeholders_other_text", Val.vStr "")]

/-- Restore stage 3 of the C1 round trip (state of `updates` after the first 3 section restorers). -/
def C1_u3 : PyDict := [("_wizard_automation_title", Val.vStr "Round Trip Test"),
  ("_wizard_automation_description", Val.vStr "Testing round trip"),
  ("_wizard_problem_statement", Val.vStr ""),
  ("_wizard_expected_use", Val.vStr ""),
  ("_wizard_error_conditions", Val.vStr ""),
  ("_wizard_assumptions", Val.vStr ""),
  ("_wizard_deployment_strategy", Val.vStr "— Select a deployment strategy —"),
  ("_wizard_deployment_strategy_other", Val.vStr ""),
  ("_wizard_deployment_strategy_description", Val.vStr ""),
  ("_wizard_out_of_scope", Val.vStr ""),
  ("no_move_forward", Val.vStr ""),
  ("no_move_forward_reasons", Val.vList []),
  ("_wizard_category", Val.vStr "Other"),
  ("_wizard_category_other", Val.vStr ""),
  ("stakeholders_choices", Val.vDict []),
  ("stakeholders_other_text", Val.vStr ""),
  ("my_role_who", Val.vStr ""),
  ("my_role_skills", Val.vStr ""),
  ("my_role_dev", Val.vStr "")]

/-- Restore stage 4 of the C1 round trip (state of `updates` after the first 4 section restorers). -/
def C1_u4 : PyDict := [("_wizard_automation_title", Val.vStr "Round Trip Test"),
  ("_wizard_automation_description", Val.vStr "Testing round trip"),
  ("_wizard_problem_statement", Val.vStr ""),
  ("_wizard_expected_use", Val.vStr ""),
  ("_wizard_error_conditions", Val.vStr ""),
  ("_wizard_assumptions", Val.vStr ""),
  ("_wizard_deployment_strategy", Val.vStr "— Select a deployment strategy —"),
  ("_wizard_deployment_strategy_other", Val.vStr ""),
  ("_wizard_deployment_strategy_description", Val.vStr ""),
  ("_wizard_out_of_scope", Val.vStr ""),
  ("no_move_forward", Val.vStr ""),
  ("no_move_forward_reasons", Val.vList []),
  ("_wizard_category", Val.vStr "Other"),
  ("_wizard_category_other", Val.vStr ""),
  ("stakeholders_choices", Val.vDict []),
  ("stakeholders_other_text", Val.vStr ""),
  ("my_role_who", Val.vStr ""),
  ("my_role_skills", Val.vStr ""),
  ("my_role_dev", Val.vStr "")]

/-- Restore stage 5 of the C1 round trip (state of `updates` after the first 5 section restorers). -/
def C1_u5 : PyDict := [("_wizard_automation_title", Val.vStr "Round Trip Test"),
  ("_wizard_automation_description", Val.vStr "Testing round trip"),
  ("_wizard_problem_statement", Val.vStr ""),
  ("_wizard_expected_use", Val.vStr ""),
  ("_wizard_error_conditions", Val.vStr ""),
  ("_wizard_assumptions", Val.vStr ""),
  ("_wizard_deployment_strategy", Val.vStr "— Select a deployment strategy —"),
  ("_wizard_deployment_strategy_other", Val.vStr ""),
  ("_wizard_deployment_strategy_description", Val.vStr ""),
  ("_wizard_out_of_scope", Val.vStr ""),
  ("no_move_forward", Val.vStr ""),
  ("no_move_forward_reasons", Val.vList []),
  ("_wizard_category", Val.vStr "Other"),
  ("_wizard_category_other", Val.vStr ""),
  ("stakeholders_choices", Val.vDict []),
  ("stakeholders_other_text", Val.vStr ""),
  ("my_role_who", Val.vStr ""),
  ("my_role_skills", Val.vStr ""),
  ("my_role_dev", Val.vStr "")]

/-- Restore stage 6 of the C1 round trip (state of `updates` after the first 6 section restorers). -/
def C1_u6 : PyDict := [("_wizard_automation_title", Val.vStr "Round Trip Test"),
  ("_wizard_automation_description", Val.vStr "Testing round trip"),
  ("_wizard_problem_statement", Val.vStr ""),
  ("_wizard_expected_use", Val.vStr ""),
  ("_wizard_error_conditions", Val.vStr ""),
  ("_wizard_assumptions", Val.vStr ""),
  ("_wizard_deployment_strategy", Val.vStr "— Select a deployment strategy —"),
  ("_wizard_deployment_strategy_other", Val.vStr ""),
  ("_wizard_deployment_strategy_description", Val.vStr ""),
  ("_wizard_out_of_scope", Val.vStr ""),
  ("no_move_forward", Val.vStr ""),
  ("no_move_forward_reasons", Val.vList []),
  ("_wizard_category", Val.vStr "Other"),
  ("_wizard_category_other", Val.vStr ""),
  ("stakeholders_choices", Val.vDict []),
  ("stakeholders_other_text", Val.vStr ""),
  ("my_role_who", Val.vStr ""),
  ("my_role_skills", Val.vStr ""),
  ("my_role_dev", Val.vStr ""),
  ("obs_go_no_go", Val.vStr ""),
  ("obs_add_logic_text", Val.vStr "")]

/-- Restore stage 7 of the C1 round trip (state of `updates` after the first 7 section restorers). -/
def C1_u7 : PyDict := [("_wizard_automation_title", Val.vStr "Round Trip Test"),
  ("_wizard_automation_description", Val.vStr "Testing round trip"),
  ("_wizard_problem_statement", Val.vStr ""),
  ("_wizard_expected_use", Val.vStr ""),
  ("_wizard_error_conditions", Val.vStr ""),
  ("_wizard_assumptions", Val.vStr ""),
  ("_wizard_deployment_strategy", Val.vStr "— Select a deployment strategy —"),
  ("_wizard_deployment_strategy_other", Val.vStr ""),
  ("_wizard_deployment_strategy_description", Val.vStr ""),
  ("_wizard_out_of_scope", Val.vStr ""),
  ("no_move_forward", Val.vStr ""),
  ("no_move_forward_reasons", Val.vList []),
  ("_wizard_category", Val.vStr "Other"),
  ("_wizard_category_other", Val.vStr ""),
  ("stakeholders_choices", Val.vDict []),
  ("stakeholders_other_text", Val.vStr ""),
  ("my_role_who", Val.vStr ""),
  ("my_role_skills", Val.vStr ""),
  ("my_role_dev", Val.vStr ""),
  ("obs_go_no_go", Val.vStr ""),
  ("obs_add_logic_text", Val.vStr ""),
  ("orch_choice", Val.vStr "— Select one —"),
  ("orch_details_text", Val.vStr "")]

/-- Restore stage 8 of the C1 round trip (state of `updates` after the first 8 section restorers). -/
def C1_u8 : PyDict := [("_wizard_automation_title", Val.vStr "Round Trip Test"),
  ("_wizard_automation_description", Val.vStr "Testing round trip"),
  ("_wizard_problem_statement", Val.vStr ""),
  ("_wizard_expected_use", Val.vStr ""),
  ("_wizard_error_conditions", Val.vStr ""),
  ("_wizard_assumptions", Val.vStr ""),
  ("_wizard_deployment_strategy", Val.vStr "— Select a deployment strategy —"),
  ("_wizard_deployment_strategy_other", Val.vStr ""),
  ("_wizard_deployment_strategy_description", Val.vStr ""),
  ("_wizard_out_of_scope", Val.vStr ""),
  ("no_move_forward", Val.vStr ""),
  ("no_move_forward_reasons", Val.vList []),
  ("_wizard_category", Val.vStr "Other"),
  ("_wizard_category_other", Val.vStr ""),
  ("stakeholders_choices", Val.vDict []),
  ("stakeholders_other_text", Val.vStr ""),
  ("my_role_who", Val.vStr ""),
  ("my_role_skills", Val.vStr ""),
  ("my_role_dev", Val.vStr ""),
  ("obs_go_no_go", Val.vStr ""),
  ("obs_add_logic_text", Val.vStr ""),
  ("orch_choice", Val.vStr "— Select one —"),
  ("orch_details_text", Val.vStr ""),
  ("collector_devices", Val.vStr ""),
  ("collector_metrics", Val.vStr ""),
  ("collector_cadence", Val.vStr "")]

/-- Restore stage 9 of the C1 round trip (state of `updates` after the first 9 section restorers). -/
def C1_u9 : PyDict := [("_wizard_automation_title", Val.vStr "Round Trip Test"),
  ("_wizard_automation_description", Val.vStr "Testing round trip"),
  ("_wizard_problem_statement", Val.vStr ""),
  ("_wizard_expected_use", Val.vStr ""),
  ("_wizard_error_conditions", Val.vStr ""),
  ("_wizard_assumptions", Val.vStr ""),
  ("_wizard_deployment_strategy", Val.vStr "— Select a deployment strategy —"),
  ("_wizard_deployment_strategy_other", Val.vStr ""),
  ("_wizard_deployment_strategy_description", Val.vStr ""),
  ("_wizard_out_of_scope", Val.vStr ""),
  ("no_move_forward", Val.vStr ""),
  ("no_move_forward_reasons", Val.vList []),
  ("_wizard_category", Val.vStr "Other"),
  ("_wizard_category_other", Val.vStr ""),
  ("stakeholders_choices", Val.vDict []),
  ("stakeholders_other_text", Val.vStr ""),
  ("my_role_who", Val.vStr ""),
  ("my_role_skills", Val.vStr ""),
  ("my_role_dev", Val.vStr ""),
  ("obs_go_no_go", Val.vStr ""),
  ("obs_add_logic_text", Val.vStr ""),
  ("orch_choice", Val.vStr "— Select one —"),
  ("orch_details_text", Val.vStr ""),
  ("collector_devices", Val.vStr ""),
  ("collector_metrics", Val.vStr ""),
  ("collector_cadence", Val.vStr "")]

/-- Restore stage 10 of the C1 round trip (state of `updates` after the first 10 section restorers). -/
def C1_u10 : PyDict := [("_wizard_automation_title", Val.vStr "Round Trip Test"),
  ("_wizard_automation_description", Val.vStr "Testing round trip"),
  ("_wizard_problem_statement", Val.vStr ""),
  ("_wizard_expected_use", Val.vStr ""),
  ("_wizard_error_conditions", Val.vStr ""),
  ("_wizard_assumptions", Val.vStr ""),
  ("_wizard_deployment_strategy", Val.vStr "— Select a deployment strategy —"),
  ("_wizard_deployment_strategy_other", Val.vStr ""),
  ("_wizard_deployment_strategy_description", Val.vStr ""),
  ("_wizard_out_of_scope", Val.vStr ""),
  ("no_move_forward", Val.vStr ""),
  ("no_move_forward_reasons", Val.vList []),
  ("_wizard_category", Val.vStr "Other"),
  ("_wizard_category_other", Val.vStr ""),
  ("stakeholders_choices", Val.vDict []),
  ("stakeholders_other_text", Val.vStr ""),
  ("my_role_who", Val.vStr ""),
  ("my_role_skills", Val.vStr ""),
  ("my_role_dev", Val.vStr ""),
  ("obs_go_no_go", Val.vStr ""),
  ("obs_add_logic_text", Val.vStr ""),
  ("orch_choice", Val.vStr "— Select one —"),
  ("orch_details_text", Val.vStr ""),
  ("collector_devices", Val.vStr ""),
  ("collector_metrics", Val.vStr ""),
  ("collector_cadence", Val.vStr ""),
  ("dep_Network Infrastructure", Val.vBool true),
  ("dep_Revision Control system", Val.vBool true),
  ("dep_Revision Control system_details", Val.vStr "GitHub")]

/-- Restore stage 11 of the C1 round trip (state of `updates` after the first 11 section restorers). -/
def C1_u11 : PyDict := [("_wizard_automation_title", Val.vStr "Round Trip Test"),
  ("_wizard_automation_description", Val.vStr "Testing round trip"),
  ("_wizard_problem_statement", Val.vStr ""),
  ("_wizard_expected_use", Val.vStr ""),
  ("_wizard_error_conditions", Val.vStr ""),
  ("_wizard_assumptions", Val.vStr ""),
  ("_wizard_deployment_strategy", Val.vStr "— Select a deployment strategy —"),
  ("_wizard_deployment_strategy_other", Val.vStr ""),
  ("_wizard_deployment_strategy_description", Val.vStr ""),
  ("_wizard_out_of_scope", Val.vStr ""),
  ("no_move_forward", Val.vStr ""),
  ("no_move_forward_reasons", Val.vList []),
  ("_wizard_category", Val.vStr "Other"),
  ("_wizard_category_other", Val.vStr ""),
  ("stakeholders_choices", Val.vDict []),
  ("stakeholders_other_text", Val.vStr ""),
  ("my_role_who", Val.vStr ""),
  ("my_role_skills", Val.vStr ""),
  ("my_role_dev", Val.vStr ""),
  ("obs_go_no_go", Val.vStr ""),
  ("obs_add_logic_text", Val.vStr ""),
  ("orch_choice", Val.vStr "— Select one —"),
  ("orch_details_text", Val.vStr ""),
  ("collector_devices", Val.vStr ""),
  ("collector_metrics", Val.vStr ""),
  ("collector_cadence", Val.vStr ""),
  ("dep_Network Infrastructure", Val.vBool true),
  ("dep_Revision Control system", Val.vBool true),
  ("dep_Revision Control system_details", Val.vStr "GitHub"),
  ("timeline_build_buy", Val.vStr "Build In-House"),
  ("timeline_staff_count", Val.vInt (0)),
  ("timeline_external_staff_count", Val.vInt (0)),
  ("timeline_staffing_plan", Val.vStr ""),
  ("timeline_holiday_region", Val.vStr "None"),
  ("timeline_start_date", Val.vDate 738886)]

/-- The document built again from the restored snapshot `C1_u11`: the author is lost (empty string) and the empty category has become "Other". -/
def C1_payload2 : PyDict := [("initiative", Val.vDict [("author", Val.vStr ""), ("title", Val.vStr "Round Trip Test"), ("description", Val.vStr "Testing round trip"), ("category", Val.vStr "Other"), ("category_other", Val.vStr ""), ("problem_statement", Val.vStr ""), ("expected_use", Val.vStr ""), ("error_conditions", Val.vStr ""), ("assumptions", Val.vStr ""), ("deployment_strategy", Val.vStr "— Select a deployment strategy —"), ("deployment_strategy_other", Val.vStr ""), ("deployment_strategy_description", Val.vStr ""), ("out_of_scope", Val.vStr ""), ("no_move_forward", Val.vStr ""), ("no_move_forward_reasons", Val.vList [])]),
  ("my_role", Val.vDict [("who", Val.vStr ""), ("skills", Val.vStr ""), ("developer", Val.vStr "")]),
  ("stakeholders", Val.vDict [("choices", Val.vDict []), ("other", Val.vStr "")]),
  ("presentation", Val.vDict [("users", Val.vStr ""), ("interaction", Val.vStr ""), ("tools", Val.vStr ""), ("auth", Val.vStr ""), ("selections", Val.vDict [("users", Val.vList []), ("interactions", Val.vList []), ("tools", Val.vList []), ("auth", Val.vList [])])]),
  ("intent", Val.vDict [("development", Val.vStr ""), ("provided", Val.vStr ""), ("selections", Val.vDict [("development", Val.vList []), ("provided", Val.vList [])])]),
  ("observability", Val.vDict [("methods", Val.vStr ""), ("go_no_go", Val.vStr ""), ("additional_logic", Val.vStr ""), ("tools", Val.vStr ""), ("selections", Val.vDict [("methods", Val.vList []), ("go_no_go_text", Val.vStr ""), ("additional_logic_enabled", Val.vBool false), ("additional_logic_text", Val.vStr ""), ("tools", Val.vList [])])]),
  ("orchestration", Val.vDict [("summary", Val.vStr ""), ("selections", Val.vDict [("choice", Val.vStr "— Select one —"), ("details", Val.vStr "")])]),
  ("collector", Val.vDict [("methods", Val.vStr ""), ("auth", Val.vStr ""), ("handling", Val.vStr ""), ("normalization", Val.vStr ""), ("scale", Val.vStr ""), ("tools", Val.vStr ""), ("selections", Val.vDict [("methods", Val.vList []), ("auth", Val.vList []), ("handling", Val.vList []), ("normalization", Val.vList []), ("devices", Val.vStr ""), ("metrics_per_sec", Val.vStr ""), ("cadence", Val.vStr ""), ("tools", Val.vList [])])]),
  ("executor", Val.vDict [("methods", Val.vStr ""), ("selections", Val.vDict [("methods", Val.vList [])])]),
  ("dependencies", Val.vList [Val.vDict [("name", Val.vStr "Network Infrastructure"), ("details", Val.vStr "")], Val.vDict [("name", Val.vStr "Revision Control system"), ("details", Val.vStr "GitHub")]]),
  ("timeline", Val.vDict [("start_date", Val.vStr "2024-01-01"), ("total_business_days", Val.vInt (0)), ("projected_completion", Val.vNone), ("build_buy", Val.vStr "Build In-House"), ("staff_count", Val.vInt (0)), ("external_staff_count", Val.vInt (0)), ("staffing_plan_md", Val.vStr ""), ("holiday_region", Val.vStr "None"), ("items", Val.vList [])])]

/-! ### Theorems

The remainder of the file is the verification layer: first decidable
equality for `Val` (via `Val.beq`), then the lemma clusters and the claim
theorems. -/

mutual

theorem Val.beq_iff : ∀ a b : Val, Val.beq a b = true ↔ a = b
  | .vStr _, .vStr _ => by simp [Val.beq]
  | .vBool _, .vBool _ => by simp [Val.beq]
  | .vInt _, .vInt _ => by simp [Val.beq]
  | .vDate _, .vDate _ => by simp [Val.beq]
  | .vNone, .vNone => by simp [Val.beq]
  | .vList a, .vList b => by simp [Val.beq, Val.beqList_iff a b]
  | .vDict a, .vDict b => by simp [Val.beq, Val.beqDict_iff a b]
  | .vStr _, .vBool _ => by simp [Val.beq]
  | .vStr _, .vInt _ => by simp [Val.beq]
  | .vStr _, .vDate _ => by simp [Val.beq]
  | .vStr _, .vNone => by simp [Val.beq]
  | .vStr _, .vList _ => by simp [Val.beq]
  | .vStr _, .vDict _ => by simp [Val.beq]
  | .vBool _, .vStr _ => by simp [Val.beq]
  | .vBool _, .vInt _ => by simp [Val.beq]
  | .vBool _, .vDate _ => by simp [Val.beq]
  | .vBool _, .vNone => by simp [Val.beq]
  | .vBool _, .vList _ => by simp [Val.beq]
  | .vBool _, .vDict _ => by simp [Val.beq]
  | .vInt _, .vStr _ => by simp [Val.beq]
  | .vInt _, .vBool _ => by simp [Val.beq]
  | .vInt _, .vDate _ => by simp [Val.beq]
  | .vInt _, .vNone => by simp [Val.beq]
  | .vInt _, .vList _ => by simp [Val.beq]
  | .vInt _, .vDict _ => by simp [Val.beq]
  | .vDate _, .vStr _ => by simp [Val.beq]
  | .vDate _, .vBool _ => by simp [Val.beq]
  | .vDate _, .vInt _ => by simp [Val.beq]
  | .vDate _, .vNone => by simp [Val.beq]
  | .vDate _, .vList _ => by simp [Val.beq]
  | .vDate _, .vDict _ => by simp [Val.beq]
  | .vNone, .vStr _ => by simp [Val.beq]
  | .vNone, .vBool _ => by simp [Val.beq]
  | .vNone, .vInt _ => by simp [Val.beq]
  | .vNone, .vDate _ => by simp [Val.beq]
  | .vNone, .vList _ => by simp [Val.beq]
  | .vNone, .vDict _ => by simp [Val.beq]
  | .vList _, .vStr _ => by simp [Val.beq]
  | .vList _, .vBool _ => by simp [Val.beq]
  | .vList _, .vInt _ => by simp [Val.beq]
  | .vList _, .vDate _ => by simp [Val.beq]
  | .vList _, .vNone => by simp [Val.beq]
  | .vList _, .vDict _ => by simp [Val.beq]
  | .vDict _, .vStr _ => by simp [Val.beq]
  | .vDict _, .vBool _ => by simp [Val.beq]
  | .vDict _, .vInt _ => by simp [Val.beq]
  | .vDict _, .vDate _ => by simp [Val.beq]
  | .vDict _, .vNone => by simp [Val.beq]
  | .vDict _, .vList _ => by simp [Val.beq]

theorem Val.beqList_iff : ∀ a b : List Val, Val.beqList a b = true ↔ a = b
  | [], [] => by simp [Val.beqList]
  | x :: xs, y :: ys => by
      simp [Val.beqList, Val.beq_iff x y, Val.beqList_iff xs ys]
  | [], _ :: _ => by simp [Val.beqList]
  | _ :: _, [] => by simp [Val.beqList]

theorem Val.beqDict_iff : ∀ a b : List (String × Val), Val.beqDict a b = true ↔ a = b
  | [], [] => by simp [Val.beqDict]
  | (k, x) :: xs, (j, y) :: ys => by
      simp [Val.beqDict, Val.beq_iff x y, Val.beqDict_iff xs ys, and_assoc]
  | [], _ :: _ => by simp [Val.beqDict]
  | _ :: _, [] => by simp [Val.beqDict]

end

instance : DecidableEq Val := fun a b =>
  decidable_of_iff (Val.beq a b = true) (Val.beq_iff a b)

instance : DecidableEq Val := fun a b =>
  decidable_of_iff (Val.beq a b = true) (Val.beq_iff a b)

theorem val_beq_refl (a : Val) : (a == a) = true := (Val.beq_iff a a).mpr rfl

theorem val_beq_eq_false_iff (a b : Val) : ((a == b) = false) ↔ a ≠ b := by
  constructor
  · intro h hab
    subst hab
    rw [val_beq_refl] at h
    cases h
  · intro h
    by_contra hb
    rw [Bool.not_eq_false] at hb
    exact h ((Val.beq_iff a b).mp hb)

theorem val_bne_iff (a b : Val) : (a != b) = true ↔ a ≠ b := by
  rw [bne, Bool.not_eq_true']
  exact val_beq_eq_false_iff a b

/-! ### Business-day arithmetic of `_add_business_days` -/

theorem contains_eq_false_iff (H : List Int) (x : Int) : (H.contains x = false) ↔ x ∉ H := by
  simp [List.contains]

theorem pigeonhole_not_mem (H : List Int) (f : Nat → Int)
    (hinj : ∀ i j, i ≤ H.length → j ≤ H.length → f i = f j → i = j) :
    ∃ i, i ≤ H.length ∧ f i ∉ H := by
  by_contra hc
  push_neg at hc
  have hsub : (Finset.range (H.length + 1)).image f ⊆ H.toFinset := by
    intro x hx
    rw [Finset.mem_image] at hx
    obtain ⟨i, hi, rfl⟩ := hx
    rw [Finset.mem_range] at hi
    exact List.mem_toFinset.mpr (hc i (by omega))
  have hcard := Finset.card_le_card hsub
  rw [Finset.card_image_of_injOn (fun i hi j hj hf =>
    hinj i j (by rw [Finset.mem_coe, Finset.mem_range] at hi; omega)
      (by rw [Finset.mem_coe, Finset.mem_range] at hj; omega) hf)] at hcard
  rw [Finset.card_range] at hcard
  have := H.toFinset_card_le
  omega

theorem exists_counted_in_window (H : List Int) (c : Int) :
    ∃ j : Nat, 1 ≤ j ∧ j ≤ 7 * (H.length + 1) ∧ isCountedDay H (c + j) = true := by
  have hw0 : 0 ≤ (c - 1) % 7 := Int.emod_nonneg _ (by norm_num)
  have hw7 : (c - 1) % 7 < 7 := Int.emod_lt_of_pos _ (by norm_num)
  obtain ⟨i, hi, hnot⟩ := pigeonhole_not_mem H (fun i => c + (7 - (c - 1) % 7) + 7 * i)
    (by intro i j _ _ hf; simp only at hf; omega)
  refine ⟨(7 - (c - 1) % 7).toNat + 7 * i, by omega, by omega, ?_⟩
  have hcj : c + (((7 - (c - 1) % 7).toNat + 7 * i : Nat) : Int) =
      c + (7 - (c - 1) % 7) + 7 * i := by
    push_cast
    omega
  rw [isCountedDay, hcj]
  have hwk : weekday (c + (7 - (c - 1) % 7) + 7 * i) = 0 := by
    rw [weekday]; omega
  rw [hwk]
  simp [contains_eq_false_iff, hnot]

theorem nextCountedAux_spec (H : List Int) : ∀ (f : Nat) (c : Int),
    (∃ j : Nat, 1 ≤ j ∧ j ≤ f ∧ isCountedDay H (c + j) = true) →
    c < nextCountedAux H f c ∧ nextCountedAux H f c ≤ c + f ∧
      isCountedDay H (nextCountedAux H f c) = true ∧
      ∀ x, c < x → x < nextCountedAux H f c → isCountedDay H x = false := by
  intro f
  induction f with
  | zero =>
    rintro c ⟨j, hj1, hj2, _⟩
    omega
  | succ f ih =>
    rintro c ⟨j, hj1, hj2, hj⟩
    by_cases hcnt : isCountedDay H (c + 1) = true
    · rw [show nextCountedAux H (f + 1) c = c + 1 by simp [nextCountedAux, hcnt]]
      exact ⟨by omega, by omega, hcnt, fun x h1 h2 => by omega⟩
    · have hres : nextCountedAux H (f + 1) c = nextCountedAux H f (c + 1) := by
        simp [nextCountedAux, hcnt]
      have hj2' : 2 ≤ j := by
        by_contra hcon
        have hj1' : j = 1 := by omega
        rw [hj1'] at hj
        have : c + ((1 : Nat) : Int) = c + 1 := by norm_num
        rw [this] at hj
        exact hcnt hj
      have hwit : ∃ j2 : Nat, 1 ≤ j2 ∧ j2 ≤ f ∧ isCountedDay H (c + 1 + j2) = true := by
        refine ⟨j - 1, by omega, by omega, ?_⟩
        have : c + 1 + ((j - 1 : Nat) : Int) = c + j := by omega
        rw [this]
        exact hj
      obtain ⟨g1, g2, g3, g4⟩ := ih (c + 1) hwit
      rw [hres]
      refine ⟨by omega, by omega, g3, ?_⟩
      intro x h1 h2
      rcases eq_or_lt_of_le (by omega : c + 1 ≤ x) with heq | hlt
      · rw [← heq]
        exact Bool.eq_false_iff.mpr hcnt
      · exact g4 x hlt h2

theorem nextCountedDay_spec (H : List Int) (c : Int) :
    c < nextCountedDay H c ∧ nextCountedDay H c ≤ c + 7 * (H.length + 1) ∧
      isCountedDay H (nextCountedDay H c) = true ∧
      ∀ x, c < x → x < nextCountedDay H c → isCountedDay H x = false := by
  have h := nextCountedAux_spec H (7 * (H.length + 1)) c (exists_counted_in_window H c)
  unfold nextCountedDay
  refine ⟨h.1, ?_, h.2.2⟩
  have := h.2.1
  omega

theorem nextCountedDay_gt (H : List Int) (c : Int) : c < nextCountedDay H c :=
  (nextCountedDay_spec H c).1

theorem nextCountedDay_le_window (H : List Int) (c : Int) :
    nextCountedDay H c ≤ c + 7 * (H.length + 1) := (nextCountedDay_spec H c).2.1

theorem nextCountedDay_counted (H : List Int) (c : Int) :
    isCountedDay H (nextCountedDay H c) = true := (nextCountedDay_spec H c).2.2.1

theorem nextCountedDay_min (H : List Int) (c : Int) (x : Int) (h1 : c < x)
    (h2 : x < nextCountedDay H c) : isCountedDay H x = false :=
  (nextCountedDay_spec H c).2.2.2 x h1 h2

theorem nextCountedDay_unique (H : List Int) (c m : Int) (h1 : c < m)
    (h2 : isCountedDay H m = true)
    (h3 : ∀ x, c < x → x < m → isCountedDay H x = false) : nextCountedDay H c = m := by
  rcases lt_trichotomy (nextCountedDay H c) m with h | h | h
  · have := h3 _ (nextCountedDay_gt H c) h
    rw [nextCountedDay_counted H c] at this
    exact absurd this (by simp)
  · exact h
  · have := nextCountedDay_min H c m h1 h
    rw [h2] at this
    exact absurd this (by simp)

theorem addBDAux_zero (H : List Int) (f : Nat) (c : Int) : addBDAux H f c 0 = c := by
  cases f <;> rfl

theorem addBDAux_step (H : List Int) :
    ∀ (f : Nat) (c : Int) (n : Nat), (nextCountedDay H c - c).toNat ≤ f →
      addBDAux H f c (n + 1) =
        addBDAux H (f - (nextCountedDay H c - c).toNat) (nextCountedDay H c) n := by
  intro f
  induction f with
  | zero =>
    intro c n h
    have := nextCountedDay_gt H c
    omega
  | succ f ih =>
    intro c n h
    have hgt := nextCountedDay_gt H c
    by_cases hcnt : isCountedDay H (c + 1) = true
    · have hnc : nextCountedDay H c = c + 1 :=
        nextCountedDay_unique H c (c + 1) (by omega) hcnt (by intro x h1 h2; omega)
      rw [hnc]
      have : (c + 1 - c).toNat = 1 := by omega
      rw [this]
      show addBDAux H (f + 1) c (n + 1) = addBDAux H (f + 1 - 1) (c + 1) n
      simp only [addBDAux, hcnt, if_true, Nat.add_sub_cancel]
    · have hnc2 : c + 2 ≤ nextCountedDay H c := by
        by_contra hcon
        have heq : nextCountedDay H c = c + 1 := by omega
        have hcc := nextCountedDay_counted H c
        rw [heq] at hcc
        exact hcnt hcc
      have hnc' : nextCountedDay H (c + 1) = nextCountedDay H c :=
        nextCountedDay_unique H (c + 1) _ (by omega) (nextCountedDay_counted H c)
          (fun x h1 h2 => nextCountedDay_min H c x (by omega) h2)
      have hstep : addBDAux H (f + 1) c (n + 1) = addBDAux H f (c + 1) (n + 1) := by
        simp only [addBDAux, hcnt, if_false, Bool.false_eq_true]
      rw [hstep]
      have hgap : (nextCountedDay H (c + 1) - (c + 1)).toNat ≤ f := by rw [hnc']; omega
      rw [ih (c + 1) n hgap, hnc']
      have : f - (nextCountedDay H c - (c + 1)).toNat =
          f + 1 - (nextCountedDay H c - c).toNat := by omega
      rw [this]

theorem addBDAux_eq_iterate (H : List Int) :
    ∀ (n : Nat) (f : Nat) (c : Int), 7 * (H.length + 1) * n ≤ f →
      addBDAux H f c n = (fun x => nextCountedDay H x)^[n] c := by
  intro n
  induction n with
  | zero => intro f c _; rw [Function.iterate_zero]; exact addBDAux_zero H f c
  | succ n ih =>
    intro f c hf
    have hwin := nextCountedDay_le_window H c
    have hgt := nextCountedDay_gt H c
    have hgap : (nextCountedDay H c - c).toNat ≤ 7 * (H.length + 1) := by omega
    have h75 : 7 * (H.length + 1) ≤ 7 * (H.length + 1) * (n + 1) := by
      have h1 : 1 ≤ n + 1 := by omega
      calc 7 * (H.length + 1) = 7 * (H.length + 1) * 1 := by ring
        _ ≤ 7 * (H.length + 1) * (n + 1) := Nat.mul_le_mul_left _ h1
    have hfg : (nextCountedDay H c - c).toNat ≤ f := by omega
    rw [addBDAux_step H f c n hfg]
    rw [ih (f - (nextCountedDay H c - c).toNat) (nextCountedDay H c) (by
      have : 7 * (H.length + 1) * (n + 1) = 7 * (H.length + 1) * n + 7 * (H.length + 1) := by ring
      omega)]
    rw [Function.iterate_succ_apply]

theorem _add_business_days_eq_iterate (d : Int) (n : Int) (H : List Int) :
    _add_business_days d n H = (fun x => nextCountedDay H x)^[n.toNat] d :=
  addBDAux_eq_iterate H n.toNat (7 * (H.length + 1) * n.toNat) d (le_refl _)

theorem le_iterate_next (H : List Int) (d : Int) :
    ∀ n : Nat, d ≤ (fun x => nextCountedDay H x)^[n] d := by
  intro n
  induction n with
  | zero => simp
  | succ n ih =>
    rw [Function.iterate_succ_apply']
    have := nextCountedDay_gt H ((fun x => nextCountedDay H x)^[n] d)
    simp only at this ⊢
    omega

theorem count_iterate (H : List Int) (d : Int) :
    ∀ n : Nat, countedInWindow H d ((fun x => nextCountedDay H x)^[n] d) = n := by
  intro n
  induction n with
  | zero => simp [countedInWindow]
  | succ n ih =>
    have hdr := le_iterate_next H d n
    have hrr : (fun x => nextCountedDay H x)^[n] d < (fun x => nextCountedDay H x)^[n + 1] d := by
      rw [Function.iterate_succ_apply']
      exact nextCountedDay_gt H _
    set r := (fun x => nextCountedDay H x)^[n] d with hr
    set r2 := (fun x => nextCountedDay H x)^[n + 1] d with hr2
    have hr2n : r2 = nextCountedDay H r := by rw [hr2, Function.iterate_succ_apply']
    have hsplit : Finset.Ioc d r2 = Finset.Ioc d r ∪ Finset.Ioc r r2 :=
      (Finset.Ioc_union_Ioc_eq_Ioc hdr (le_of_lt hrr)).symm
    have hdisj : Disjoint (Finset.Ioc d r) (Finset.Ioc r r2) := by
      rw [Finset.disjoint_left]
      intro a ha hb
      rw [Finset.mem_Ioc] at ha hb
      omega
    have hone : (Finset.Ioc r r2).filter (fun x => isCountedDay H x = true) = {r2} := by
      apply Finset.ext
      intro x
      simp only [Finset.mem_filter, Finset.mem_Ioc, Finset.mem_singleton]
      constructor
      · rintro ⟨⟨hx1, hx2⟩, hx3⟩
        by_contra hne
        have hlt : x < r2 := lt_of_le_of_ne hx2 hne
        rw [hr2n] at hlt
        have := nextCountedDay_min H r x hx1 hlt
        rw [hx3] at this
        cases this
      · rintro rfl
        refine ⟨⟨hrr, le_refl _⟩, ?_⟩
        rw [hr2n]
        exact nextCountedDay_counted H r
    rw [countedInWindow, hsplit, Finset.filter_union,
      Finset.card_union_of_disjoint (Finset.disjoint_filter_filter hdisj), hone]
    rw [countedInWindow] at ih
    rw [ih]
    simp

theorem counted_budget (H : List Int) (d : Int) (n : Int) :
    countedInWindow H d (_add_business_days d n H) = n.toNat := by
  rw [_add_business_days_eq_iterate]
  exact count_iterate H d n.toNat

theorem isCountedDay_cons (h : Int) (H : List Int) (x : Int) :
    isCountedDay (h :: H) x = (isCountedDay H x && !(x == h)) := by
  simp only [isCountedDay, List.contains_cons]
  by_cases h1 : weekday x < 5 <;> by_cases h2 : x = h <;> by_cases h3 : H.contains x <;>
    simp [h1, h2, h3, Bool.and_comm]

theorem filter_cons_erase (h : Int) (H : List Int) (s : Finset Int) :
    s.filter (fun x => isCountedDay (h :: H) x = true) =
      (s.filter (fun x => isCountedDay H x = true)).erase h := by
  apply Finset.ext
  intro x
  simp only [Finset.mem_filter, Finset.mem_erase, isCountedDay_cons]
  constructor
  · rintro ⟨hs, hc⟩
    rw [Bool.and_eq_true] at hc
    refine ⟨?_, hs, hc.1⟩
    intro hx
    rw [hx] at hc
    simp at hc
  · rintro ⟨hne, hs, hc⟩
    refine ⟨hs, ?_⟩
    rw [Bool.and_eq_true, hc]
    simp [hne]

theorem addBD_holiday_extends (d : Int) (n : Int) (H : List Int) (h : Int)
    (hw : weekday h < 5) (hmem : h ∉ H) (hd : d < h)
    (hr : h ≤ _add_business_days d n H) :
    _add_business_days d n H + 1 ≤ _add_business_days d n (h :: H) := by
  set r := _add_business_days d n H with hrdef
  set r2 := _add_business_days d n (h :: H) with hr2def
  have hcount : countedInWindow H d r = n.toNat := counted_budget H d n
  have hcount2 : countedInWindow (h :: H) d r2 = n.toNat := counted_budget (h :: H) d n
  have hhc : isCountedDay H h = true := by
    have hcf : H.contains h = false := (contains_eq_false_iff H h).mpr hmem
    rw [isCountedDay, hcf]
    simp [hw]
  have hhmem : h ∈ (Finset.Ioc d r).filter (fun x => isCountedDay H x = true) := by
    rw [Finset.mem_filter, Finset.mem_Ioc]
    exact ⟨⟨hd, hr⟩, hhc⟩
  have hcut : countedInWindow (h :: H) d r = n.toNat - 1 := by
    rw [countedInWindow, filter_cons_erase, Finset.card_erase_of_mem hhmem]
    rw [countedInWindow] at hcount
    rw [hcount]
  have hpos : 1 ≤ n.toNat := by
    have := Finset.card_pos.mpr ⟨h, hhmem⟩
    rw [countedInWindow] at hcount
    omega
  by_contra hcon
  push_neg at hcon
  have hsub : (Finset.Ioc d r2).filter (fun x => isCountedDay (h :: H) x = true) ⊆
      (Finset.Ioc d r).filter (fun x => isCountedDay (h :: H) x = true) := by
    apply Finset.filter_subset_filter
    apply Finset.Ioc_subset_Ioc_right
    omega
  have := Finset.card_le_card hsub
  rw [countedInWindow] at hcount2 hcut
  omega

/-- C6: business-day arithmetic of `_add_business_days`: adding 0 business
days yields the start date for every date and holiday set; adding 5 business
days to Monday 2024-01-01 with no holidays gives 2024-01-08 (the weekend is
skipped without consuming budget); and for every holiday set, a weekday
holiday inside the advanced window consumes at least one extra calendar day
while the window still contains exactly n counted business days. -/
theorem C6_add_business_days_correct :
    (∀ (d : Int) (H : List Int), _add_business_days d 0 H = d) ∧
    _add_business_days (toOrdinal 2024 1 1) 5 [] = toOrdinal 2024 1 8 ∧
    (∀ (d n : Int) (H : List Int) (h : Int),
      weekday h < 5 → h ∉ H → d < h → h ≤ _add_business_days d n H →
      countedInWindow (h :: H) d (_add_business_days d n (h :: H)) = n.toNat ∧
      _add_business_days d n H + 1 ≤ _add_business_days d n (h :: H)) := by
  refine ⟨?_, ?_, ?_⟩
  · intro d H
    exact addBDAux_zero H _ d
  · decide
  · intro d n H h hw hm hd hr
    exact ⟨counted_budget (h :: H) d n, addBD_holiday_extends d n H h hw hm hd hr⟩

/-- Witness for C6 at start 2024-01-01 (ordinal 738886), 5 business days,
holiday 2024-01-03 (ordinal 738888): the completion moves from 2024-01-08 to
2024-01-09. -/
theorem C6_add_business_days_correct_witness :
    weekday 738888 < 5 ∧ (738888 : Int) ∉ ([] : List Int) ∧ (738886 : Int) < 738888 ∧
    (738888 : Int) ≤ _add_business_days 738886 5 [] ∧
    countedInWindow [738888] 738886 (_add_business_days 738886 5 [738888]) = (5 : Int).toNat ∧
    _add_business_days 738886 5 [] + 1 ≤ _add_business_days 738886 5 [738888] := by
  have h := C6_add_business_days_correct.2.2 738886 5 [] 738888
    (by decide) (by decide) (by decide) (by decide)
  exact ⟨by decide, by decide, by decide, by decide, h.1, h.2⟩

/-! ### Dependencies defaults (C9) and the executor prefix quirk (C10) -/

theorem truthy_vStr_true {s : String} (hs : s ≠ "") : truthy (Val.vStr s) = true := by
  simp [truthy, hs]

theorem strMapM_of_strings (items : List Val) (h : ∀ v ∈ items, ∃ t, v = Val.vStr t) :
    ∃ l, items.mapM (fun v => match v with | Val.vStr s => some s | _ => none) = some l := by
  induction items with
  | nil => exact ⟨[], rfl⟩
  | cons x xs ih =>
    obtain ⟨t, rfl⟩ := h x (List.mem_cons_self x xs)
    obtain ⟨l, hl⟩ := ih (fun v hv => h v (List.mem_cons_of_mem _ hv))
    refine ⟨t :: l, ?_⟩
    rw [List.mapM_cons, hl]
    rfl

theorem joinValsComma_of_strings (items : List Val)
    (h : ∀ v ∈ items, ∃ t, v = Val.vStr t) : ∃ out, joinValsComma items = some out := by
  obtain ⟨l, hl⟩ := strMapM_of_strings items h
  refine ⟨pyJoin ", " l, ?_⟩
  rw [joinValsComma, hl]
  rfl

theorem sentence_of_strings (items : List Val) (pre suf : String)
    (h : ∀ v ∈ items, ∃ t, v = Val.vStr t) :
    ∃ out, _build_sentence_from_list items pre suf = some out := by
  rcases items with _ | ⟨a, _ | ⟨b, _ | ⟨c, rest⟩⟩⟩
  · exact ⟨"", rfl⟩
  · exact ⟨_, rfl⟩
  · exact ⟨_, rfl⟩
  · obtain ⟨out, hout⟩ := joinValsComma_of_strings ((a :: b :: c :: rest).dropLast)
      (fun v hv => h v (List.dropLast_subset _ hv))
    rw [_build_sentence_from_list, hout]
    exact ⟨_, rfl⟩

/-- C9: building from a snapshot in which no dependency checkbox is set —
every key with prefix "dep_" that is not a details key holds a non-truthy
value (per the data model, checkbox keys hold booleans, so this is exactly
"no dependency checkbox set true") — yields exactly the default pair
[Network Infrastructure, Revision Control system/GitHub]; and that pair,
normalized and sorted the way the page prepares its "no meaningful change"
comparison, equals the page's documented baseline `default_deps`. -/
theorem C9_default_dependencies (session_state : PyDict)
    (h : ∀ p ∈ session_state, pyStartsWith p.1 "dep_" = true →
      pyEndsWith p.1 "_details" = false → truthy p.2 = false) :
    _build_dependencies_data session_state =
      [Val.vDict [("name", Val.vStr "Network Infrastructure"), ("details", Val.vStr "")],
       Val.vDict [("name", Val.vStr "Revision Control system"), ("details", Val.vStr "GitHub")]] ∧
    (deps_slim (_build_dependencies_data session_state)).bind _sorted_deps =
      _sorted_deps default_deps := by
  have hfil : session_state.filter
      (fun p => pyStartsWith p.1 "dep_" && !pyEndsWith p.1 "_details" && truthy p.2) = [] := by
    rw [List.filter_eq_nil_iff]
    intro p hp hpred
    by_cases h1 : pyStartsWith p.1 "dep_" = true
    · by_cases h2 : pyEndsWith p.1 "_details" = true
      · rw [h1, h2] at hpred
        simp at hpred
      · have h2f : pyEndsWith p.1 "_details" = false := by
          rw [Bool.not_eq_true] at h2
          exact h2
        have h3 := h p hp h1 h2f
        rw [h1, h2f, h3] at hpred
        simp at hpred
    · rw [Bool.not_eq_true] at h1
      rw [h1] at hpred
      simp at hpred
  have hbuild : _build_dependencies_data session_state =
      [Val.vDict [("name", Val.vStr "Network Infrastructure"), ("details", Val.vStr "")],
       Val.vDict [("name", Val.vStr "Revision Control system"), ("details", Val.vStr "GitHub")]] := by
    rw [_build_dependencies_data, hfil]
    rfl
  refine ⟨hbuild, ?_⟩
  rw [hbuild]
  decide

/-- Witness for C9: a snapshot with an unticked dependency checkbox and an
unrelated field. -/
theorem C9_default_dependencies_witness :
    (∀ p ∈ ([("dep_network_infra", Val.vBool false),
        ("_wizard_automation_title", Val.vStr "T")] : PyDict),
      pyStartsWith p.1 "dep_" = true → pyEndsWith p.1 "_details" = false →
        truthy p.2 = false) ∧
    _build_dependencies_data
      [("dep_network_infra", Val.vBool false), ("_wizard_automation_title", Val.vStr "T")] =
      [Val.vDict [("name", Val.vStr "Network Infrastructure"), ("details", Val.vStr "")],
       Val.vDict [("name", Val.vStr "Revision Control system"), ("details", Val.vStr "GitHub")]] := by
  have hyp : ∀ p ∈ ([("dep_network_infra", Val.vBool false),
      ("_wizard_automation_title", Val.vStr "T")] : PyDict),
      pyStartsWith p.1 "dep_" = true → pyEndsWith p.1 "_details" = false →
        truthy p.2 = false := by
    intro p hp h1 h2
    rcases List.mem_cons.mp hp with rfl | hp2
    · rfl
    · rcases List.mem_cons.mp hp2 with rfl | hp3
      · exact absurd h1 (by decide)
      · cases hp3
  refine ⟨hyp, ?_⟩
  exact (C9_default_dependencies
    [("dep_network_infra", Val.vBool false), ("_wizard_automation_title", Val.vStr "T")]
    hyp).1

/-- C10: when the key `exec_custom_enable` holds `True`, the executor prefix
scan over "exec_" also matches the enable-toggle key itself, so
`executor.selections.methods` in the built payload contains the literal
string "custom_enable" in addition to the comma-split entries of
`exec_custom_text`. -/
theorem C10_exec_custom_enable (session_state : PyDict) (s : String)
    (henable : ("exec_custom_enable", Val.vBool true) ∈ session_state)
    (hget : dgetD session_state "exec_custom_enable" (Val.vBool false) = Val.vBool true)
    (htext : dgetD session_state "exec_custom_text" (Val.vStr "") = Val.vStr s)
    (hs : s ≠ "") :
    ∃ sentence, _build_executor_data session_state =
      some (Val.vDict [("methods", Val.vStr sentence),
        ("selections", Val.vDict [("methods", Val.vList
          (_collect_checkbox_values session_state "exec_" ++
            (pySplit s ",").map (fun x => Val.vStr (pyStrip x))))])]) ∧
    Val.vStr "custom_enable" ∈
      _collect_checkbox_values session_state "exec_" ++
        (pySplit s ",").map (fun x => Val.vStr (pyStrip x)) ∧
    ∀ part ∈ (pySplit s ",").map (fun x => Val.vStr (pyStrip x)),
      part ∈ _collect_checkbox_values session_state "exec_" ++
        (pySplit s ",").map (fun x => Val.vStr (pyStrip x)) := by
  have hcustom : _get_custom_value session_state "exec_custom_text" "exec_custom_enable" =
      Val.vStr s := by
    rw [_get_custom_value, hget]
    simp [truthy, htext]
  have hmem : Val.vStr "custom_enable" ∈ _collect_checkbox_values session_state "exec_" := by
    rw [_collect_checkbox_values]
    refine List.mem_map.mpr ⟨("exec_custom_enable", Val.vBool true), ?_, by decide⟩
    exact List.mem_filter.mpr ⟨henable, by decide⟩
  have hstrs : ∀ v ∈ _collect_checkbox_values session_state "exec_" ++
      (pySplit s ",").map (fun x => Val.vStr (pyStrip x)), ∃ t, v = Val.vStr t := by
    intro v hv
    rcases List.mem_append.mp hv with hv | hv
    · rw [_collect_checkbox_values] at hv
      obtain ⟨p, _, rfl⟩ := List.mem_map.mp hv
      exact ⟨_, rfl⟩
    · obtain ⟨x, _, rfl⟩ := List.mem_map.mp hv
      exact ⟨_, rfl⟩
  obtain ⟨sentence, hsent⟩ := sentence_of_strings _ "Changes will be executed using " "." hstrs
  refine ⟨sentence, ?_, List.mem_append_left _ hmem, fun part hp => List.mem_append_right _ hp⟩
  rw [_build_executor_data, hcustom]
  simp only [truthy_vStr_true hs, if_true, pySplitStripVals, Option.pure_def,
    Option.bind_eq_bind, Option.some_bind]
  rw [hsent]
  rfl

/-- Witness for C10: the enable toggle is on and the custom text holds two
comma-separated methods. -/
theorem C10_exec_custom_enable_witness :
    (("exec_custom_enable", Val.vBool true) ∈
      ([("exec_custom_enable", Val.vBool true),
        ("exec_custom_text", Val.vStr "Ansible, Scripts")] : PyDict)) ∧
    Val.vStr "custom_enable" ∈
      _collect_checkbox_values
        [("exec_custom_enable", Val.vBool true),
         ("exec_custom_text", Val.vStr "Ansible, Scripts")] "exec_" ++
        (pySplit "Ansible, Scripts" ",").map (fun x => Val.vStr (pyStrip x)) := by
  obtain ⟨sentence, _, hmem2, _⟩ := C10_exec_custom_enable
    [("exec_custom_enable", Val.vBool true), ("exec_custom_text", Val.vStr "Ansible, Scripts")]
    "Ansible, Scripts" (List.mem_cons_self _ _) (by decide) (by decide) (by decide)
  exact ⟨List.mem_cons_self _ _, hmem2⟩

/-! ### Timeline divergences (C4, C5) and restore tolerance (C7) -/

/-- C4: end-to-end evaluation of the built document for the scenario
users = [Network Engineers, Operations], interactions = [CLI],
start 2024-01-01, milestones [(Planning, 5), (Design, 10)].  The narrative
sentence, the interactions selection, the second item's start and the total
agree with the claim, but `_build_timeline_data` emits item ends one
calendar day before the cursor (landing on Sundays): items[0].end is
"2024-01-07" (not "2024-01-08") and items[1].end is "2024-01-21" (not
"2024-01-22").  The page's own schedule loop on the same milestones yields
exactly the claimed dates 2024-01-08 and 2024-01-22. -/
theorem C4_end_to_end_divergence :
    payloadField (build_wizard_payload someToday C4_state) "presentation" "users" =
      some (Val.vStr "This solution targets Network Engineers and Operations.") ∧
    payloadSel (build_wizard_payload someToday C4_state) "presentation" "interactions" =
      some (Val.vList [Val.vStr "CLI"]) ∧
    payloadField (build_wizard_payload someToday C4_state) "timeline" "total_business_days" =
      some (Val.vInt 15) ∧
    payloadItem (build_wizard_payload someToday C4_state) 1 "start" =
      some (Val.vStr "2024-01-08") ∧
    payloadItem (build_wizard_payload someToday C4_state) 0 "end" =
      some (Val.vStr "2024-01-07") ∧
    payloadItem (build_wizard_payload someToday C4_state) 1 "end" =
      some (Val.vStr "2024-01-21") ∧
    (page_schedule [] C4_rows (toOrdinal 2024 1 1) 0).map
        (fun r => (r.1.map (fun i => (i.start, i.stop)), r.2.2)) =
      some ([(toOrdinal 2024 1 1, toOrdinal 2024 1 8),
             (toOrdinal 2024 1 8, toOrdinal 2024 1 22)], 15) := by
  refine ⟨by decide, by decide, by decide, by decide, by decide, by decide, by decide⟩

/-- C5: schedule construction divergence.  `_build_timeline_data` does not
skip the blank milestone row (empty name, zero duration): it emits it with
end = start - 1 calendar day ("2023-12-31" before a "2024-01-01" start), and
the next milestone starts one calendar day after the previous end rather
than on it.  The page's schedule loop on the same rows skips the blank row,
chains start = previous end, and accumulates only the named row's
duration. -/
theorem C5_schedule_divergence :
    payloadItem (build_wizard_payload someToday C5_state) 0 "start" =
      some (Val.vStr "2024-01-01") ∧
    payloadItem (build_wizard_payload someToday C5_state) 0 "end" =
      some (Val.vStr "2023-12-31") ∧
    payloadItem (build_wizard_payload someToday C5_state) 1 "start" =
      some (Val.vStr "2024-01-01") ∧
    payloadItem (build_wizard_payload someToday C5_state) 1 "end" =
      some (Val.vStr "2024-01-14") ∧
    payloadField (build_wizard_payload someToday C5_state) "timeline" "projected_completion" =
      some (Val.vStr "2024-01-14") ∧
    payloadField (build_wizard_payload someToday C5_state) "timeline" "total_business_days" =
      some (Val.vInt 10) ∧
    (page_schedule [] C5_rows (toOrdinal 2024 1 1) 0).map
        (fun r => (r.1.map (fun i => (i.start, i.stop)), r.2.2)) =
      some ([(toOrdinal 2024 1 1, toOrdinal 2024 1 15)], 10) := by
  refine ⟨by decide, by decide, by decide, by decide, by decide, by decide, by decide⟩

/-- C7: a document whose `initiative` key holds `None` makes
`restore_session_state_from_data` raise (the only section read without an
`or {}` guard), while a fully missing document and a document whose other
ten section keys all hold `None` are tolerated and produce the stakeholder
defaults. -/
theorem C7_restore_none_initiative_raises :
    restore_session_state_from_data spec_deployment_strategies spec_use_case_categories
      [("initiative", Val.vNone)] = none ∧
    restore_session_state_from_data spec_deployment_strategies spec_use_case_categories [] =
      some [("stakeholders_choices", Val.vDict []), ("stakeholders_other_text", Val.vStr "")] ∧
    restore_session_state_from_data spec_deployment_strategies spec_use_case_categories
      [("stakeholders", Val.vNone), ("my_role", Val.vNone), ("presentation", Val.vNone),
       ("intent", Val.vNone), ("observability", Val.vNone), ("orchestration", Val.vNone),
       ("collector", Val.vNone), ("executor", Val.vNone), ("dependencies", Val.vNone),
       ("timeline", Val.vNone)] =
      some [("stakeholders_choices", Val.vDict []), ("stakeholders_other_text", Val.vStr "")] := by
  refine ⟨by decide, by decide, by decide⟩

/-! ### Invalid start date (C8) -/

theorem option_bind_const_none {α β : Type} (o : Option α) :
    (o.bind fun _ => (none : Option β)) = none := by cases o <;> rfl

/-- C8 (counterexample): a snapshot whose `timeline_start_date` is the
string "not-a-date" makes `build_wizard_payload` raise (return none) —
there is no fallback to today for malformed strings. -/
theorem C8_counterexample :
    build_wizard_payload someToday [("timeline_start_date", Val.vStr "not-a-date")] = none := by
  decide

/-- C8 (amended): a `timeline_start_date` string that does not parse as
%Y-%m-%d makes `_build_timeline_data` — and hence `build_wizard_payload` —
raise (the `strptime` call at wizard_data.py:526 has no handler); the
documented fallback to today's date applies only when the key is absent
(or holds a non-string, non-date value), not to malformed strings. -/
theorem C8_invalid_date_behavior (today : Int) (S : PyDict) :
    (∀ s, dget S "timeline_start_date" = Val.vStr s → parseYMD s = none →
      build_wizard_payload today S = none) ∧
    (dlookup S "timeline_start_date" = none →
     dlookup S "timeline_staff_count" = none →
     dlookup S "timeline_external_staff_count" = none →
     dlookup S "timeline_milestones" = none →
     ((_build_timeline_data today S).bind fun t => pyGet t "start_date") =
       some (Val.vStr (formatYMD today))) := by
  constructor
  · intro s h hp
    have ht : _build_timeline_data today S = none := by
      simp [_build_timeline_data, h, hp]
    simp [build_wizard_payload, ht, option_bind_const_none]
  · intro h1 h2 h3 h4
    simp [_build_timeline_data, h1, h2, h3, h4, pyToInt, pyIter, _wd_schedule,
      pyGet, dget, dgetD, dlookup]

/-- Closed instance of the amended C8 theorem: the bad string "2024-13-99"
makes the build raise, and a snapshot with no timeline keys at all falls
back to today (2024-01-01 here) for the start date. -/
theorem C8_invalid_date_behavior_witness :
    build_wizard_payload 738886 [("timeline_start_date", Val.vStr "2024-13-99")] = none ∧
    ((_build_timeline_data 738886 []).bind fun t => pyGet t "start_date") =
      some (Val.vStr (formatYMD 738886)) := by
  refine ⟨(C8_invalid_date_behavior 738886 _).1 "2024-13-99" (by decide) (by decide),
    (C8_invalid_date_behavior 738886 []).2 (by decide) (by decide) (by decide) (by decide)⟩

/-! ### Sentinel handling (C2) -/

/-- C2 (counterexample): build stores the sentinel placeholders verbatim —
`initiative.category` and `initiative.deployment_strategy` of the built
document equal the sentinels, not the empty string; and restoring a
document whose category is the empty string sets the category choice to
"Other", not to the sentinel placeholder. -/
theorem C2_counterexample :
    payloadField (build_wizard_payload someToday C2_state) "initiative" "category" =
      some (Val.vStr "— Select a category —") ∧
    payloadField (build_wizard_payload someToday C2_state) "initiative" "deployment_strategy" =
      some (Val.vStr "— Select a deployment strategy —") ∧
    ((restore_session_state_from_data spec_deployment_strategies spec_use_case_categories
        [("initiative", Val.vDict [("category", Val.vStr "")])]).bind
      fun u => dlookup u "_wizard_category") = some (Val.vStr "Other") := by
  refine ⟨by decide, by decide, by decide⟩

/-- C2 (amended): `build_wizard_payload` passes the raw session values
through — whatever string sits under `_wizard_category` or
`_wizard_deployment_strategy` (sentinels included) is stored verbatim in
the document.  On restore, an empty deployment strategy does yield the
sentinel placeholder, but an empty category yields "Other" (the category
branch has no sentinel case). -/
theorem C2_sentinel_behavior (today : Int) (S : PyDict) (p : PyDict)
    (hp : build_wizard_payload today S = some p) :
    pyGet (dget p "initiative") "category" =
      some (dgetD S "_wizard_category" (Val.vStr "")) ∧
    pyGet (dget p "initiative") "deployment_strategy" =
      some (dgetD S "_wizard_deployment_strategy" (Val.vStr "")) ∧
    ((restore_session_state_from_data spec_deployment_strategies spec_use_case_categories
        [("initiative", Val.vDict [("deployment_strategy", Val.vStr "")])]).bind
      fun u => dlookup u "_wizard_deployment_strategy") =
      some (Val.vStr "— Select a deployment strategy —") ∧
    ((restore_session_state_from_data spec_deployment_strategies spec_use_case_categories
        [("initiative", Val.vDict [("category", Val.vStr "")])]).bind
      fun u => dlookup u "_wizard_category") = some (Val.vStr "Other") := by
  rw [build_wizard_payload] at hp
  simp only [Option.bind_eq_bind] at hp
  simp only [Option.bind_eq_some, Option.pure_def, Option.some.injEq] at hp
  obtain ⟨a1, h1, a2, h2, a3, h3, a4, h4, a5, h5, a6, h6, a7, h7, hp⟩ := hp
  subst hp
  refine ⟨?_, ?_, by decide, by decide⟩
  · simp [pyGet, dget, dgetD, dlookup]
  · simp [pyGet, dget, dgetD, dlookup]

/-- Closed instance of the amended C2 theorem at the sentinel snapshot. -/
theorem C2_sentinel_behavior_witness :
    pyGet (dget C2_payload "initiative") "category" =
      some (dgetD C2_state "_wizard_category" (Val.vStr "")) ∧
    pyGet (dget C2_payload "initiative") "deployment_strategy" =
      some (dgetD C2_state "_wizard_deployment_strategy" (Val.vStr "")) ∧
    ((restore_session_state_from_data spec_deployment_strategies spec_use_case_categories
        [("initiative", Val.vDict [("deployment_strategy", Val.vStr "")])]).bind
      fun u => dlookup u "_wizard_deployment_strategy") =
      some (Val.vStr "— Select a deployment strategy —") ∧
    ((restore_session_state_from_data spec_deployment_strategies spec_use_case_categories
        [("initiative", Val.vDict [("category", Val.vStr "")])]).bind
      fun u => dlookup u "_wizard_category") = some (Val.vStr "Other") :=
  C2_sentinel_behavior someToday C2_state C2_payload (by decide)

/-! ### Other-value resolution (C3) -/

/-- C3: the restore direction is catalog-driven as claimed — a document
deployment strategy outside the catalog restores as {choice "Other",
override value}, and a catalog value ("Canary") restores as {choice
"Canary", override ""} — but the build direction is not: building the
snapshot {choice "Other", override "My Plan"} stores the literal "Other"
in `initiative.deployment_strategy` (the resolved local of
wizard_data.py:240-242 is never used; "My Plan" only reaches the separate
`deployment_strategy_other` field). -/
theorem C3_other_resolution_divergence :
    payloadField (build_wizard_payload someToday C3_state) "initiative" "deployment_strategy" =
      some (Val.vStr "Other") ∧
    payloadField (build_wizard_payload someToday C3_state) "initiative"
      "deployment_strategy_other" = some (Val.vStr "My Plan") ∧
    ((restore_session_state_from_data spec_deployment_strategies spec_use_case_categories
        [("initiative", Val.vDict [("deployment_strategy", Val.vStr "My Plan")])]).bind
      fun u => some (dlookup u "_wizard_deployment_strategy",
                     dlookup u "_wizard_deployment_strategy_other")) =
      some (some (Val.vStr "Other"), some (Val.vStr "My Plan")) ∧
    ((restore_session_state_from_data spec_deployment_strategies spec_use_case_categories
        [("initiative", Val.vDict [("deployment_strategy", Val.vStr "Canary")])]).bind
      fun u => some (dlookup u "_wizard_deployment_strategy",
                     dlookup u "_wizard_deployment_strategy_other")) =
      some (some (Val.vStr "Canary"), some (Val.vStr "")) := by
  refine ⟨by decide, by decide, by decide, by decide⟩

/-! ### Round trip (C1) -/

theorem C1_build1 : build_wizard_payload 738886 C1_state = some C1_payload := by decide

theorem C1_s1 : restore_initiative spec_deployment_strategies spec_use_case_categories
    (dgetD C1_payload "initiative" (Val.vDict [])) [] = some C1_u1 := by decide

theorem C1_s2 : restore_stakeholders C1_payload C1_u1 = C1_u2 := by decide

theorem C1_s3 : restore_my_role C1_payload C1_u2 = some C1_u3 := by decide

theorem C1_s4 : restore_presentation C1_payload C1_u3 = some C1_u4 := by decide

theorem C1_s5 : restore_intent C1_payload C1_u4 = some C1_u5 := by decide

theorem C1_s6 : restore_observability C1_payload C1_u5 = some C1_u6 := by decide

theorem C1_s7 : restore_orchestration C1_payload C1_u6 = some C1_u7 := by decide

theorem C1_s8 : restore_collector C1_payload C1_u7 = some C1_u8 := by decide

theorem C1_s9 : restore_executor C1_payload C1_u8 = some C1_u9 := by decide

theorem C1_s10 : restore_dependencies C1_payload C1_u9 = some C1_u10 := by decide

theorem C1_s11 : restore_timeline C1_payload C1_u10 = some C1_u11 := by decide

theorem C1_restore : restore_session_state_from_data spec_deployment_strategies
    spec_use_case_categories C1_payload = some C1_u11 := by
  rw [restore_session_state_from_data]
  simp only [Option.bind_eq_bind, C1_s1, C1_s2, C1_s3, C1_s4, C1_s5, C1_s6, C1_s7, C1_s8,
    C1_s9, C1_s10, C1_s11, Option.some_bind, Option.pure_def]

theorem C1_build2 : build_wizard_payload 738886 C1_u11 = some C1_payload2 := by decide

/-- C1: the round trip is not the identity on fields present in the
snapshot.  Building the snapshot {author "Alice Johnson", title
"Round Trip Test", description "Testing round trip"}, restoring the
document, and building again preserves title and description but loses the
author: `restore_session_state_from_data` never writes `_wizard_author`, so
the rebuilt document's `initiative.author` is "" while the original's is
"Alice Johnson" (and the rebuilt documents also differ on category and
deployment strategy, which pick up "Other" and the sentinel on restore). -/
theorem C1_roundtrip_divergence :
    build_wizard_payload 738886 C1_state = some C1_payload ∧
    restore_session_state_from_data spec_deployment_strategies spec_use_case_categories
      C1_payload = some C1_u11 ∧
    build_wizard_payload 738886 C1_u11 = some C1_payload2 ∧
    pyGet (dget C1_payload "initiative") "author" = some (Val.vStr "Alice Johnson") ∧
    pyGet (dget C1_payload2 "initiative") "author" = some (Val.vStr "") ∧
    pyGet (dget C1_payload2 "initiative") "title" = some (Val.vStr "Round Trip Test") ∧
    pyGet (dget C1_payload2 "initiative") "description" =
      some (Val.vStr "Testing round trip") := by
  refine ⟨C1_build1, C1_restore, C1_build2, by decide, by decide, by decide, by decide⟩
